import Mathlib

/-!
Barrot: backend handlers and chat client, embedded and verified.

A shallow embedding of `src/backend/server.js` (the REST handlers over the
SQLite store), of `src/js/chat.js` (the canned-response chat client and its
bounded history), of the media modules `src/js/streaming.js` and
`src/js/studio.js`, and of the scene handling of `src/js/rendering.js`.

Conventions of the embedding

* A request-body field is a `JsVal`: a JSON scalar, or `undefined` for a field
  that is absent. Numbers are integers (fractions and `NaN` are outside the
  embedding).
* The SQLite engine is modelled from the SQL text the handlers send: tables are
  lists of rows in rowid order, `AUTOINCREMENT` keys come from a per-table
  sequence, `UNIQUE`/`NOT NULL` are checked on insert, `ORDER BY`/`LIMIT`
  follow the SQLite documentation.
* What the environment supplies is an explicit argument: the clocks, an engine
  failure (`dbError`), the random bytes of `crypto.randomBytes`, the draw of
  `Math.random`, how the promise of `getUserMedia` settles, the handles of
  timers and animation frames.
* Library functions whose code is not in the repository and whose behaviour
  is not spelled out here in full are arguments too: JavaScript's
  `toLowerCase`, SQLite's numeric conversion of a text that is not a plain
  integer, and its text of a double. A theorem holds for every such function;
  worked examples take `Env.sample`.
* A client module is a record of its top-level variables and of the page
  elements its functions touch, with the list of the calls it has made into
  the browser; an `async` function is run to its end on the outcome of the
  promise it awaits.
-/

set_option maxRecDepth 100000

namespace Barrot

/-! ## JavaScript values and strings -/

/-- A JSON scalar as a request body carries it; `undefined` is an absent field. -/
inductive JsVal where
  | undefined
  | null
  | bool (b : Bool)
  | num (n : Int)
  | str (s : String)
  deriving DecidableEq, Repr

/-- JavaScript truthiness (`ToBoolean`): what `!v` and `v || w` test. -/
def JsVal.truthy : JsVal → Bool
  | .undefined => false
  | .null => false
  | .bool b => b
  | .num n => n != 0
  | .str s => s != ""

/-- The JavaScript expression `v || null`. -/
def JsVal.orNull (v : JsVal) : JsVal :=
  if v.truthy then v else JsVal.null

/-- Substring test on character lists: `sub` occurs somewhere in `s`. -/
def includesChars : List Char → List Char → Bool
  | [], sub => sub.isEmpty
  | c :: cs, sub => sub.isPrefixOf (c :: cs) || includesChars cs sub

/-- `String.prototype.includes`: `sub` is a substring of `s`. -/
def includes (s sub : String) : Bool :=
  includesChars s.data sub.data

/-- `String.prototype.toLowerCase` as it acts on ASCII text: the letters
`A`-`Z` are mapped to `a`-`z` and every other character is kept. JavaScript's
function, which also maps letters outside ASCII, is an argument of the
generators below; this one stands in for it on ASCII input. -/
def asciiToLowerCase (s : String) : String :=
  ⟨s.data.map Char.toLower⟩

/-- The code points of ECMAScript `WhiteSpace` and `LineTerminator`, which
`String.prototype.trim` and `parseInt` strip. -/
def isJsWhitespace (c : Char) : Bool :=
  let n := c.toNat
  n == 0x09 || n == 0x0A || n == 0x0B || n == 0x0C || n == 0x0D || n == 0x20 ||
  n == 0xA0 || n == 0x1680 || (0x2000 ≤ n && n ≤ 0x200A) || n == 0x2028 ||
  n == 0x2029 || n == 0x202F || n == 0x205F || n == 0x3000 || n == 0xFEFF

/-- `String.prototype.trim`: drop white space at both ends. -/
def jsTrim (s : String) : String :=
  ⟨((s.data.dropWhile isJsWhitespace).reverse.dropWhile isJsWhitespace).reverse⟩

/-! ## Response generators -/

/-- Server reply for the `stream` keyword (`server.js`, `generateResponse`). -/
def serverStreamResponse : String :=
  "To start streaming, navigate to the Streaming section and click 'Start Stream'."

/-- Server reply for the `record` keyword. -/
def serverRecordResponse : String :=
  "The Recording Studio allows you to record audio with real-time visualization."

/-- Server reply for the `render` / `3d` keywords. -/
def serverRenderResponse : String :=
  "Our 3D Rendering tool uses Three.js for interactive visualizations."

/-- Server reply when no keyword matches. -/
def serverDefaultResponse : String :=
  "I'm Barrot, your AI assistant. How can I help you today?"

/-- The function `generateResponse` of `server.js`. The argument `toLowerCase`
is JavaScript's `String.prototype.toLowerCase`. -/
def generateResponse (toLowerCase : String → String) (message : String) : String :=
  let lowerMessage := toLowerCase message
  if includes lowerMessage "stream" then
    serverStreamResponse
  else if includes lowerMessage "record" then
    serverRecordResponse
  else if includes lowerMessage "render" || includes lowerMessage "3d" then
    serverRenderResponse
  else
    serverDefaultResponse

/-- Client reply for `stream` / `streaming` (`chat.js`, `generateBarrotResponse`). -/
def clientStreamResponse : String :=
  "To start streaming, navigate to the Streaming section and click the 'Start Stream' button. Make sure to grant camera and microphone permissions when prompted. You can adjust the quality settings and toggle audio/video as needed."

/-- Client reply for `record` / `recording`. -/
def clientRecordResponse : String :=
  "The Recording Studio allows you to record high-quality audio with real-time visualization. Click the Record button to start, and you can pause, stop, and download your recordings. All recordings are saved locally in your browser."

/-- Client reply for `render` / `3d`. -/
def clientRenderResponse : String :=
  "Our 3D Rendering tool uses Three.js to create interactive 3D visualizations. You can choose different shapes, adjust rotation speed, change colors, and export your renders as images. Try dragging the object with your mouse to rotate it manually!"

/-- Client reply for `feature` / `what can`. -/
def clientFeatureResponse : String :=
  "Barrot offers several powerful features: Live Streaming with WebRTC, a Recording Studio with audio visualization, 3D Rendering with interactive controls, real-time chat assistance, and cloud storage capabilities. All features work directly in your browser with no additional software needed!"

/-- Client reply for `help` / `how`. -/
def clientHelpResponse : String :=
  "I'm here to help! You can ask me about streaming, recording, 3D rendering, or any other features. Just type your question and I'll do my best to assist you. You can also use the quick question buttons for common queries."

/-- Client reply for `audio` / `sound`. -/
def clientAudioResponse : String :=
  "Our audio production tools include a full recording studio with real-time visualization, volume control, reverb, and delay effects. You can record, pause, playback, and download your audio creations. The Web Audio API provides professional-grade audio processing."

/-- Client reply for `video`. -/
def clientVideoResponse : String :=
  "Video streaming is powered by WebRTC technology, allowing you to stream directly from your camera. You can control video quality (480p, 720p, 1080p), toggle video on/off, and monitor stream duration. All processing happens in real-time with minimal latency."

/-- Client reply for `thank` / `thanks`. -/
def clientThanksResponse : String :=
  "You're welcome! I'm always here to help. Feel free to explore all the features Barrot has to offer. If you have any other questions, just ask!"

/-- Client reply for `hello` / `hi`. -/
def clientHelloResponse : String :=
  "Hello! Welcome to Barrot! I'm your AI assistant, ready to help you explore our multimedia platform. What would you like to know about?"

/-- The array `defaultResponses` of `generateBarrotResponse`. -/
def defaultResponses : List String :=
  [ "That's an interesting question! Barrot is designed to provide powerful multimedia tools right in your browser. Would you like to know more about a specific feature?",
    "I can help you with streaming, recording, 3D rendering, and more. What would you like to explore?",
    "Barrot combines cutting-edge web technologies to deliver a seamless creative experience. Ask me about any of our features!",
    "Great question! Our platform offers streaming, recording studio, 3D rendering, and AI chat capabilities. Which one interests you most?" ]

/-- Array indexing `xs[i]` with a number: `none` is JavaScript's `undefined`,
the result for an index outside the array. -/
def jsIndex {α : Type} (xs : List α) (i : Int) : Option α :=
  if i < 0 then none else xs.get? i.toNat

/-- The function `generateBarrotResponse` of `chat.js`. The argument
`toLowerCase` is JavaScript's `String.prototype.toLowerCase`; the argument
`random` is the value `Math.random()` returns when the default branch draws
it; the product with the array length (a power of two) and `Math.floor` are
exact on it, so it is taken as a rational. -/
def generateBarrotResponse (toLowerCase : String → String) (random : ℚ)
    (userMessage : String) : Option String :=
  let lowerMessage := toLowerCase userMessage
  if includes lowerMessage "stream" || includes lowerMessage "streaming" then
    some clientStreamResponse
  else if includes lowerMessage "record" || includes lowerMessage "recording" then
    some clientRecordResponse
  else if includes lowerMessage "render" || includes lowerMessage "3d" then
    some clientRenderResponse
  else if includes lowerMessage "feature" || includes lowerMessage "what can" then
    some clientFeatureResponse
  else if includes lowerMessage "help" || includes lowerMessage "how" then
    some clientHelpResponse
  else if includes lowerMessage "audio" || includes lowerMessage "sound" then
    some clientAudioResponse
  else if includes lowerMessage "video" then
    some clientVideoResponse
  else if includes lowerMessage "thank" || includes lowerMessage "thanks" then
    some clientThanksResponse
  else if includes lowerMessage "hello" || includes lowerMessage "hi" then
    some clientHelloResponse
  else
    jsIndex defaultResponses ⌊random * (defaultResponses.length : ℚ)⌋

/-! ### The generators as the specification words them

An ordered list of (keyword set, response) pairs; the first pair one of whose
keywords occurs in the lower-cased input gives the response. -/

/-- The first pair, in list order, one of whose keywords is a substring of
`lowered`; `none` when no pair matches. -/
def firstMatch (pairs : List (List String × String)) (lowered : String) : Option String :=
  (pairs.find? (fun p => p.1.any (fun kw => includes lowered kw))).map (fun p => p.2)

/-- The keyword sets of `generateResponse`, in source order. -/
def serverPairs : List (List String × String) :=
  [ (["stream"], serverStreamResponse),
    (["record"], serverRecordResponse),
    (["render", "3d"], serverRenderResponse) ]

/-- The keyword sets of `generateBarrotResponse`, in source order. -/
def clientPairs : List (List String × String) :=
  [ (["stream", "streaming"], clientStreamResponse),
    (["record", "recording"], clientRecordResponse),
    (["render", "3d"], clientRenderResponse),
    (["feature", "what can"], clientFeatureResponse),
    (["help", "how"], clientHelpResponse),
    (["audio", "sound"], clientAudioResponse),
    (["video"], clientVideoResponse),
    (["thank", "thanks"], clientThanksResponse),
    (["hello", "hi"], clientHelloResponse) ]

/-! ## Chat client (`chat.js`) -/

/-- One message block appended to `#chatMessages`: its text and the sender
class (`user` or `bot`). -/
structure ChatEntry where
  message : String
  sender : String
  deriving DecidableEq, Repr

/-- The part of the page the chat functions touch. `chatInput` is the value of
`#chatInput` (`none`: no such element), `chatMessages` the blocks under
`#chatMessages` (`none`: no such element), `timers` the callbacks handed to
`setTimeout` and not yet run: the delay and the message each one captured. -/
structure ChatPage where
  chatInput : Option String
  chatMessages : Option (List ChatEntry)
  timers : List (Nat × String)
  deriving DecidableEq, Repr

/-- The function `addMessageToChat` of `chat.js`. -/
def addMessageToChat (page : ChatPage) (message sender : String) : ChatPage :=
  match page.chatMessages with
  | none => page
  | some blocks => { page with chatMessages := some (blocks ++ [⟨message, sender⟩]) }

/-- The function `sendChatMessage` of `chat.js`. -/
def sendChatMessage (page : ChatPage) : ChatPage :=
  match page.chatInput with
  | none => page
  | some value =>
    let message := jsTrim value
    if message == "" then page
    else
      let page := addMessageToChat page message "user"
      let page := { page with chatInput := some "" }
      { page with timers := page.timers ++ [(1000, message)] }

/-! ## Numbers in text -/

/-- Decimal digits of `n`, most significant first, in front of `acc`; `fuel`
bounds the number of digits. -/
def decimalDigits : Nat → Nat → List Char → List Char
  | 0, _, acc => acc
  | fuel + 1, n, acc =>
    let acc := Char.ofNat (48 + n % 10) :: acc
    if n / 10 = 0 then acc else decimalDigits fuel (n / 10) acc

/-- The decimal text of a natural number, as JavaScript and SQLite print it. -/
def renderNat (n : Nat) : String :=
  ⟨decimalDigits (n + 1) n []⟩

/-- The decimal text of an integer. -/
def renderInt : Int → String
  | Int.ofNat n => renderNat n
  | Int.negSucc n => ⟨'-' :: (renderNat (n + 1)).data⟩

/-- The value of a non-empty string of decimal digits. -/
def decimalValue (cs : List Char) : Option Nat :=
  if cs.isEmpty || !cs.all Char.isDigit then none
  else some (cs.foldl (fun acc c => acc * 10 + (c.toNat - 48)) 0)

/-- The integer a text of an optional sign and decimal digits denotes; `none`
for any other text. -/
def sqlIntegerLiteral (s : String) : Option Int :=
  match s.data with
  | '-' :: rest => (decimalValue rest).map (fun n => -(n : Int))
  | '+' :: rest => (decimalValue rest).map (fun n => (n : Int))
  | cs => (decimalValue cs).map (fun n => (n : Int))

/-- The value of a digit or letter as a numeral of `parseInt`. -/
def digitValue (c : Char) : Option Nat :=
  if '0' ≤ c ∧ c ≤ '9' then some (c.toNat - 48)
  else if 'a' ≤ c ∧ c ≤ 'z' then some (c.toNat - 97 + 10)
  else if 'A' ≤ c ∧ c ≤ 'Z' then some (c.toNat - 65 + 10)
  else none

/-- The values of the longest prefix of `cs` made of digits of the radix. -/
def radixDigits (radix : Nat) : List Char → List Nat
  | [] => []
  | c :: cs =>
    match digitValue c with
    | some d => if d < radix then d :: radixDigits radix cs else []
    | none => []

/-- The number of binary digits of `n`, counted with `fuel` steps. -/
def bitLengthAux : Nat → Nat → Nat
  | 0, _ => 0
  | fuel + 1, n => if n = 0 then 0 else bitLengthAux fuel (n / 2) + 1

/-- The number of binary digits of `n`. -/
def bitLength (n : Nat) : Nat :=
  bitLengthAux n n

/-- The Number value of an integer: the nearest integer with 53 significant
bits, a tie going to the even one. (Beyond the largest double JavaScript gives
`Infinity`; the rounded integer stands for it.) -/
def roundToDouble (n : Int) : Int :=
  let a := n.natAbs
  if a < 2 ^ 53 then n
  else
    let e := bitLength a - 53
    let q := a / 2 ^ e
    let r := a % 2 ^ e
    let half := 2 ^ (e - 1)
    let q := if r > half ∨ (r = half ∧ q % 2 = 1) then q + 1 else q
    (if n < 0 then -1 else 1) * ((q * 2 ^ e : Nat) : Int)

/-- The global function `parseInt(string)` with no radix argument: leading
white space is skipped, then an optional sign, then `0x`/`0X` selects radix 16
(otherwise 10), then the longest run of digits is read and its value taken as
a Number; `none` is `NaN`, the result when there is no digit. -/
def parseInt (s : String) : Option Int :=
  let S := s.data.dropWhile isJsWhitespace
  let signed : Int × List Char :=
    match S with
    | '-' :: rest => (-1, rest)
    | '+' :: rest => (1, rest)
    | _ => (1, S)
  let prefixed : Nat × List Char :=
    match signed.2 with
    | '0' :: 'x' :: rest => (16, rest)
    | '0' :: 'X' :: rest => (16, rest)
    | _ => (10, signed.2)
  let Z := radixDigits prefixed.1 prefixed.2
  if Z.isEmpty then none
  else
    some (roundToDouble (signed.1 * ((Z.foldl (fun acc d => acc * prefixed.1 + d) 0 : Nat) : Int)))

/-! ## The SQLite store -/

deriving instance DecidableEq for Except

/-- A value held in a column without a fixed storage class. `int n` is the
whole number `n`, as an INTEGER or as a REAL of that value; `real bits` is a
REAL that is no whole number, given by the bits of the double. -/
inductive SqlVal where
  | null
  | int (n : Int)
  | real (bits : Nat)
  | text (s : String)
  deriving DecidableEq, Repr

/-- What the environment supplies to one request: the engine's clock in
seconds (`CURRENT_TIMESTAMP`), JavaScript's clock in milliseconds
(`Date.now()`), and `dbError`, the message of the error the engine reports
when the statement fails for a reason outside the schema (the file cannot be
read or written, the database is locked); `none` when it does not. With them
come the library functions the handlers rely on and the repository does not
hold: `toLowerCase` is JavaScript's `String.prototype.toLowerCase`;
`numericText` is what SQLite's numeric conversion makes of a text that is not
just a sign and digits within 64 bits (a number when the text reads as one,
with blanks around it, a fraction or an exponent; else the text itself);
`realText` is the text SQLite gives a whole number that was bound as a
double. -/
structure Env where
  sqlNow : Nat
  dateNow : Nat
  dbError : Option String
  toLowerCase : String → String
  numericText : String → SqlVal
  realText : Int → String

/-- The value SQLite's numeric conversion gives a text: the integer of a sign
and digits when it fits 64 bits, and what the engine makes of any other text. -/
def numericOfText (env : Env) (s : String) : SqlVal :=
  match sqlIntegerLiteral s with
  | some n => if -2 ^ 63 ≤ n ∧ n < 2 ^ 63 then .int n else env.numericText s
  | none => env.numericText s

/-- What a bound JavaScript value becomes in a `TEXT` column: `none` is SQL
`NULL`; a boolean is bound as the integer 1 or 0, a number as an integer when
it fits 32 bits and as a double otherwise, and each is stored as its text. -/
def toTextColumn (env : Env) : JsVal → Option String
  | .undefined => none
  | .null => none
  | .bool b => some (if b then "1" else "0")
  | .num n => some (if -2 ^ 31 ≤ n ∧ n < 2 ^ 31 then renderInt n else env.realText n)
  | .str s => some s

/-- What a bound JavaScript value becomes in an `INTEGER` column: a number is
stored as it is, a boolean as 1 or 0, a text as the numeric conversion gives
it (a text that reads as no number stays text). -/
def toIntegerColumn (env : Env) : JsVal → SqlVal
  | .undefined => .null
  | .null => .null
  | .bool b => .int (if b then 1 else 0)
  | .num n => .int n
  | .str s => numericOfText env s

/-- The comparison `column = ?` of a `WHERE` clause, the parameter bound as
text against a column of `INTEGER` affinity: the parameter is converted as
the column is, and `NULL` equals nothing. -/
def sqlEqParam (env : Env) (column : SqlVal) (param : String) : Bool :=
  match column with
  | .null => false
  | v => v == numericOfText env param

/-- The comparison `id = ?` of a key with a text parameter: a text of a sign
and digits denotes the key of that value (keys are unbounded in the
embedding), any other text what the numeric conversion gives it. -/
def keyEqParam (env : Env) (key : Nat) (param : String) : Bool :=
  match sqlIntegerLiteral param with
  | some n => n == (key : Int)
  | none => env.numericText param == SqlVal.int key

/-- A row of `users`. -/
structure UserRow where
  id : Nat
  username : String
  email : String
  created_at : Nat
  deriving DecidableEq, Repr

/-- A row of `chat_messages`. -/
structure ChatRow where
  id : Nat
  user_id : SqlVal
  message : String
  response : String
  created_at : Nat
  deriving DecidableEq, Repr

/-- A row of `recordings`. -/
structure RecordingRow where
  id : Nat
  user_id : SqlVal
  filename : String
  file_path : String
  duration : SqlVal
  created_at : Nat
  deriving DecidableEq, Repr

/-- A row of `sessions`. `expires_at` holds the instant (milliseconds since
the epoch) whose ISO-8601 text `toISOString()` the handler stores. -/
structure SessionRow where
  id : Nat
  user_id : SqlVal
  session_token : String
  expires_at : Nat
  created_at : Nat
  deriving DecidableEq, Repr

/-- The database file: the four tables of `initDatabase`, rows in rowid order,
and for each table the largest key `AUTOINCREMENT` has handed out
(`sqlite_sequence`). `created_at` is `CURRENT_TIMESTAMP`, in whole seconds. -/
structure Store where
  users : List UserRow
  chat_messages : List ChatRow
  recordings : List RecordingRow
  sessions : List SessionRow
  usersSeq : Nat
  chatSeq : Nat
  recordingsSeq : Nat
  sessionsSeq : Nat
  deriving DecidableEq, Repr

/-- The store right after `initDatabase` on a new file. -/
def Store.empty : Store :=
  ⟨[], [], [], [], 0, 0, 0, 0⟩

/-- The key `INTEGER PRIMARY KEY AUTOINCREMENT` gives the next row: one more
than the largest key the table has ever held. -/
def nextRowid (seq : Nat) (ids : List Nat) : Nat :=
  max seq (ids.foldl max 0) + 1

/-- `INSERT INTO chat_messages (user_id, message, response)`: the new key and
the store after it, or the engine's error message. -/
def insertChatMessage (env : Env) (db : Store) (userId : JsVal) (message response : String) :
    Except String (Nat × Store) :=
  match env.dbError with
  | some e => .error e
  | none =>
    let id := nextRowid db.chatSeq (db.chat_messages.map (fun r => r.id))
    .ok (id, { db with
      chat_messages := db.chat_messages ++ [⟨id, toIntegerColumn env userId, message, response, env.sqlNow⟩],
      chatSeq := id })

/-- `INSERT INTO users (username, email)`, with `NOT NULL` and `UNIQUE` on both
columns. -/
def insertUser (env : Env) (db : Store) (username email : JsVal) : Except String (Nat × Store) :=
  match env.dbError with
  | some e => .error e
  | none =>
    match toTextColumn env username, toTextColumn env email with
    | none, _ => .error "SQLITE_CONSTRAINT: NOT NULL constraint failed: users.username"
    | some _, none => .error "SQLITE_CONSTRAINT: NOT NULL constraint failed: users.email"
    | some u, some e =>
      if db.users.any (fun r => r.username == u) then
        .error "SQLITE_CONSTRAINT: UNIQUE constraint failed: users.username"
      else if db.users.any (fun r => r.email == e) then
        .error "SQLITE_CONSTRAINT: UNIQUE constraint failed: users.email"
      else
        let id := nextRowid db.usersSeq (db.users.map (fun r => r.id))
        .ok (id, { db with users := db.users ++ [⟨id, u, e, env.sqlNow⟩], usersSeq := id })

/-- `INSERT INTO recordings (user_id, filename, file_path, duration)`, with
`NOT NULL` on `filename` and `file_path`. -/
def insertRecording (env : Env) (db : Store) (userId filename filePath duration : JsVal) :
    Except String (Nat × Store) :=
  match env.dbError with
  | some e => .error e
  | none =>
    match toTextColumn env filename, toTextColumn env filePath with
    | none, _ => .error "SQLITE_CONSTRAINT: NOT NULL constraint failed: recordings.filename"
    | some _, none => .error "SQLITE_CONSTRAINT: NOT NULL constraint failed: recordings.file_path"
    | some f, some p =>
      let id := nextRowid db.recordingsSeq (db.recordings.map (fun r => r.id))
      .ok (id, { db with
        recordings := db.recordings ++
          [⟨id, toIntegerColumn env userId, f, p, toIntegerColumn env duration, env.sqlNow⟩],
        recordingsSeq := id })

/-- `INSERT INTO sessions (user_id, session_token, expires_at)`, with `UNIQUE`
on `session_token`. -/
def insertSession (env : Env) (db : Store) (userId : JsVal) (sessionToken : String)
    (expiresAt : Nat) : Except String (Nat × Store) :=
  match env.dbError with
  | some e => .error e
  | none =>
    if db.sessions.any (fun r => r.session_token == sessionToken) then
      .error "SQLITE_CONSTRAINT: UNIQUE constraint failed: sessions.session_token"
    else
      let id := nextRowid db.sessionsSeq (db.sessions.map (fun r => r.id))
      .ok (id, { db with
        sessions := db.sessions ++ [⟨id, toIntegerColumn env userId, sessionToken, expiresAt, env.sqlNow⟩],
        sessionsSeq := id })

/-- The rows of `SELECT * FROM table [WHERE user_id = ?] ORDER BY created_at
DESC LIMIT ?`. `userId` is the bound filter when the `WHERE` clause is there,
`limit` the bound limit (`none`: `NaN`, which reaches the engine as `NULL`).
As SQLite documents `LIMIT`: a value that cannot be taken as a 64-bit integer
is an error, a negative value means no upper bound. The sort is the engine's
sorter, which keeps rows of the same `created_at` in the order it read them,
the rowid order. -/
def selectNewest {α : Type} (user_id : α → SqlVal) (created_at : α → Nat) (env : Env)
    (table : List α) (userId : Option String) (limit : Option Int) : Except String (List α) :=
  match env.dbError with
  | some e => .error e
  | none =>
    match limit with
    | none => .error "SQLITE_MISMATCH: datatype mismatch"
    | some n =>
      if n ≤ -2 ^ 63 ∨ 2 ^ 63 ≤ n then .error "SQLITE_MISMATCH: datatype mismatch"
      else
        let matching :=
          match userId with
          | some u => table.filter (fun r => sqlEqParam env (user_id r) u)
          | none => table
        let ordered := matching.insertionSort (fun a b => created_at a ≥ created_at b)
        .ok (if n < 0 then ordered else ordered.take n.toNat)

/-- `SELECT * FROM users WHERE id = ?` through `db.get`: the first row whose
key the text parameter denotes, if any. -/
def selectUser (env : Env) (db : Store) (id : String) : Except String (Option UserRow) :=
  match env.dbError with
  | some e => .error e
  | none => .ok (db.users.find? (fun r => keyEqParam env r.id id))

/-! ## HTTP handlers (`server.js`) -/

/-- The JSON body of a response, one constructor for each shape a handler
sends. -/
inductive Body where
  | error (error : String)
  | health
  | chatMessage (id : Nat) (message response : String) (timestamp : Nat)
  | messages (rows : List ChatRow)
  | userCreated (id : Nat) (username email : JsVal)
  | user (row : UserRow)
  | recordingCreated (id : Nat) (filename filePath duration : JsVal)
  | recordings (rows : List RecordingRow)
  | session (sessionId : Nat) (sessionToken : String) (expiresAt : Nat)
  deriving DecidableEq, Repr

/-- A response: the status code (200 unless `res.status` sets it) and the body. -/
structure Response where
  status : Nat
  body : Body
  deriving DecidableEq, Repr

/-- The response of the error-handling middleware, which Express runs when a
handler throws. -/
def internalServerError : Response :=
  ⟨500, .error "Internal server error"⟩

/-- Handler of `GET /api/health`. -/
def getHealth : Response :=
  ⟨200, .health⟩

/-- Handler of `POST /api/chat/message`. A truthy `message` that is no string
has no `toLowerCase`: `generateResponse` throws and the middleware answers. -/
def postChatMessage (env : Env) (db : Store) (message userId : JsVal) : Response × Store :=
  if !message.truthy then
    (⟨400, .error "Message is required"⟩, db)
  else
    match message with
    | .str text =>
      let response := generateResponse env.toLowerCase text
      match insertChatMessage env db userId.orNull text response with
      | .error _ => (⟨500, .error "Failed to save message"⟩, db)
      | .ok (lastID, db) => (⟨200, .chatMessage lastID text response env.dateNow⟩, db)
    | _ => (internalServerError, db)

/-- The `userId` of a query string as the handlers use it: the `WHERE` clause
is added when it is truthy, that is a non-empty string. -/
def userFilter (userId : Option String) : Option String :=
  match userId with
  | some u => if u != "" then some u else none
  | none => none

/-- The `limit` of a query string as the handlers bind it: `parseInt` of the
parameter, of the default `50` when the parameter is absent. -/
def boundLimit (limit : Option String) : Option Int :=
  parseInt (limit.getD "50")

/-- Handler of `GET /api/chat/history`. -/
def getChatHistory (env : Env) (db : Store) (userId limit : Option String) : Response :=
  match selectNewest ChatRow.user_id ChatRow.created_at env db.chat_messages
      (userFilter userId) (boundLimit limit) with
  | .error _ => ⟨500, .error "Failed to fetch history"⟩
  | .ok rows => ⟨200, .messages rows⟩

/-- Handler of `POST /api/users`. -/
def postUsers (env : Env) (db : Store) (username email : JsVal) : Response × Store :=
  if !username.truthy || !email.truthy then
    (⟨400, .error "Username and email are required"⟩, db)
  else
    match insertUser env db username email with
    | .error message =>
      if includes message "UNIQUE constraint" then
        (⟨409, .error "Username or email already exists"⟩, db)
      else
        (⟨500, .error "Failed to create user"⟩, db)
    | .ok (lastID, db) => (⟨201, .userCreated lastID username email⟩, db)

/-- Handler of `GET /api/users/:id`; `id` is the path segment. -/
def getUser (env : Env) (db : Store) (id : String) : Response :=
  match selectUser env db id with
  | .error _ => ⟨500, .error "Failed to fetch user"⟩
  | .ok none => ⟨404, .error "User not found"⟩
  | .ok (some row) => ⟨200, .user row⟩

/-- Handler of `POST /api/recordings`. -/
def postRecordings (env : Env) (db : Store) (userId filename filePath duration : JsVal) :
    Response × Store :=
  if !filename.truthy || !filePath.truthy then
    (⟨400, .error "Filename and file path are required"⟩, db)
  else
    match insertRecording env db userId.orNull filename filePath duration.orNull with
    | .error _ => (⟨500, .error "Failed to save recording"⟩, db)
    | .ok (lastID, db) => (⟨201, .recordingCreated lastID filename filePath duration⟩, db)

/-- Handler of `GET /api/recordings`. -/
def getRecordings (env : Env) (db : Store) (userId limit : Option String) : Response :=
  match selectNewest RecordingRow.user_id RecordingRow.created_at env db.recordings
      (userFilter userId) (boundLimit limit) with
  | .error _ => ⟨500, .error "Failed to fetch recordings"⟩
  | .ok rows => ⟨200, .recordings rows⟩

/-- The 32 bytes `crypto.randomBytes(32)` returns. -/
abbrev RandomBytes := { bytes : List (Fin 256) // bytes.length = 32 }

/-- The lower-case hexadecimal digit of a value below 16. -/
def hexDigit (n : Nat) : Char :=
  if n < 10 then Char.ofNat (48 + n) else Char.ofNat (87 + n)

/-- `Buffer.toString('hex')`: two lower-case hexadecimal digits a byte. -/
def hexChars : List (Fin 256) → List Char
  | [] => []
  | b :: bs => hexDigit (b.val / 16) :: hexDigit (b.val % 16) :: hexChars bs

/-- The function `generateSessionToken` of `server.js`, on the bytes drawn. -/
def generateSessionToken (randomBytes : RandomBytes) : String :=
  ⟨hexChars randomBytes.val⟩

/-- Handler of `POST /api/sessions`. -/
def postSessions (env : Env) (randomBytes : RandomBytes) (db : Store) (userId : JsVal) :
    Response × Store :=
  if !userId.truthy then
    (⟨400, .error "User ID is required"⟩, db)
  else
    let sessionToken := generateSessionToken randomBytes
    let expiresAt := env.dateNow + 24 * 60 * 60 * 1000
    match insertSession env db userId sessionToken expiresAt with
    | .error _ => (⟨500, .error "Failed to create session"⟩, db)
    | .ok (lastID, db) => (⟨201, .session lastID sessionToken expiresAt⟩, db)

/-! ## What the theorems speak about -/

/-- The number of rows in a list body (`messages` or `recordings`); a body
that is no list carries none. -/
def Body.rowCount : Body → Nat
  | .messages rows => rows.length
  | .recordings rows => rows.length
  | _ => 0

/-- The rows of `table` the `WHERE` clause of the list handlers keeps: those
whose `user_id` equals the filter, all of them when there is no filter. -/
def matchingRows {α : Type} (env : Env) (user_id : α → SqlVal) (table : List α)
    (userId : Option String) : List α :=
  match userFilter userId with
  | some u => table.filter (fun r => sqlEqParam env (user_id r) u)
  | none => table

/-- The value of a lower-case hexadecimal digit. -/
def hexValue (c : Char) : Nat :=
  if c.toNat < 58 then c.toNat - 48 else c.toNat - 87

/-! ## Chat history (`chat.js`, class `ChatBot`) -/

/-- One entry of `conversationHistory`; `timestamp` is the instant of the
`new Date()` taken when the entry is added. -/
structure HistoryEntry where
  message : String
  sender : String
  timestamp : Nat
  deriving DecidableEq, Repr

/-- An instance of the class `ChatBot`. -/
structure ChatBot where
  conversationHistory : List HistoryEntry
  deriving DecidableEq, Repr

/-- The constructor of `ChatBot`. -/
def ChatBot.new : ChatBot :=
  ⟨[]⟩

/-- The method `addToHistory`: `push`, then `shift` when the length exceeds 50. -/
def ChatBot.addToHistory (bot : ChatBot) (message sender : String) (now : Nat) : ChatBot :=
  let conversationHistory := bot.conversationHistory ++ [⟨message, sender, now⟩]
  if conversationHistory.length > 50 then
    ⟨conversationHistory.tail⟩
  else
    ⟨conversationHistory⟩

/-- The method `getHistory`. -/
def ChatBot.getHistory (bot : ChatBot) : List HistoryEntry :=
  bot.conversationHistory

/-- The method `clearHistory`. -/
def ChatBot.clearHistory (_bot : ChatBot) : ChatBot :=
  ⟨[]⟩

/-- A sequence of `addToHistory` calls, one for each entry of `added` in
order, on a `ChatBot`. -/
def ChatBot.addAll (bot : ChatBot) (added : List HistoryEntry) : ChatBot :=
  added.foldl (fun b e => b.addToHistory e.message e.sender e.timestamp) bot

/-! ## Browser objects of the media modules -/

/-- The kind of a media track. -/
inductive TrackKind where
  | audio
  | video
  deriving DecidableEq, Repr

/-- A `MediaStreamTrack`: an identity, its kind and its `enabled` flag. -/
structure MediaTrack where
  id : Nat
  kind : TrackKind
  enabled : Bool
  deriving DecidableEq, Repr

/-- A `MediaStream`: the tracks `getTracks()` lists. -/
structure MediaStream where
  tracks : List MediaTrack
  deriving DecidableEq, Repr

/-- The `audio` member of the constraints given to `getUserMedia`: `true`, or
the three processing flags. -/
inductive AudioConstraints where
  | any
  | processing (echoCancellation noiseSuppression autoGainControl : Bool)
  deriving DecidableEq, Repr

/-- The `video` member of the constraints: `true`, or ideal width, height and
frame rate. -/
inductive VideoConstraints where
  | any
  | ideal (width height frameRate : Nat)
  deriving DecidableEq, Repr

/-- The constraints object given to `getUserMedia`; `video` is `none` when the
object has no such member. -/
structure MediaConstraints where
  audio : AudioConstraints
  video : Option VideoConstraints
  deriving DecidableEq, Repr

/-- A call the media modules make into the browser or into
`window.BarrotApp`, in the order made. Handles of timers and animation frames
are positive, as HTML defines them. -/
inductive BrowserCall where
  | getUserMedia (constraints : MediaConstraints)
  | trackStop (track : Nat)
  | videoPlay
  | setInterval (handle : ℕ+) (ms : Nat)
  | clearInterval (handle : ℕ+)
  | setTimeoutStartStream (ms : Nat)
  | showNotification (message type : String)
  | recorderStart
  | recorderPause
  | recorderResume
  | recorderStop
  | requestAnimationFrame (handle : ℕ+)
  | cancelAnimationFrame (handle : ℕ+)
  | audioPlay (url : String)
  | downloadClick (href download : String)
  deriving DecidableEq, Repr

/-! ## Streamer (`streaming.js`) -/

/-- The element `#streamStatus`: its text and its colour. -/
structure StatusElement where
  textContent : String
  color : String
  deriving DecidableEq, Repr

/-- The module variables of `streaming.js` and the part of the page its
functions touch. An element the code tests before use is optional (`none`: not
on the page): `qualitySelector` holds the selected value, `streamVideo` the
`srcObject`, `streamDuration` the text. The two buttons, which the code uses
without a test, are on the page; `barrotApp` tells whether `window.BarrotApp`
is defined. `calls` lists the browser calls made so far. -/
structure Streamer where
  mediaStream : Option MediaStream
  streamStartTime : Option Nat
  streamDurationInterval : Option ℕ+
  qualitySelector : Option String
  streamVideo : Option (Option MediaStream)
  streamStatus : Option StatusElement
  streamDuration : Option String
  startStreamDisabled : Bool
  stopStreamDisabled : Bool
  barrotApp : Bool
  calls : List BrowserCall
  deriving DecidableEq, Repr

/-- The function `getConstraintsForQuality` of `streaming.js`. -/
def getConstraintsForQuality (quality : String) : MediaConstraints :=
  let audio := AudioConstraints.processing true true true
  if quality == "1080p" then
    ⟨audio, some (.ideal 1920 1080 30)⟩
  else if quality == "720p" then
    ⟨audio, some (.ideal 1280 720 30)⟩
  else if quality == "480p" then
    ⟨audio, some (.ideal 854 480 24)⟩
  else
    ⟨audio, some .any⟩

/-- The function `updateStreamStatus` of `streaming.js`. -/
def updateStreamStatus (st : Streamer) (status type : String) : Streamer :=
  match st.streamStatus with
  | none => st
  | some _ =>
    { st with streamStatus := some ⟨status,
        if type == "success" then "#10b981"
        else if type == "error" then "#ef4444" else "#a0aec0"⟩ }

/-- `window.BarrotApp.showNotification(message, type)` behind the test
`if (window.BarrotApp)`. -/
def Streamer.notify (st : Streamer) (message type : String) : Streamer :=
  if st.barrotApp then { st with calls := st.calls ++ [BrowserCall.showNotification message type] } else st

/-- The constraints `startStream` hands to `getUserMedia`: those of the value
of `#qualitySelector`, of `720p` when the element is not there. -/
def startStreamConstraints (st : Streamer) : MediaConstraints :=
  getConstraintsForQuality (st.qualitySelector.getD "720p")

/-- The function `startStream` of `streaming.js`, run to its end with no other
handler in between. `outcome` is how the promise of `getUserMedia` settles
(the stream, or the `message` of the error it rejects with), `now` is
`Date.now()`, `handle` the handle `setInterval` returns. -/
def startStream (st : Streamer) (outcome : Except String MediaStream) (now : Nat)
    (handle : ℕ+) : Streamer :=
  let st := { st with calls := st.calls ++ [BrowserCall.getUserMedia (startStreamConstraints st)] }
  match outcome with
  | .ok stream =>
    let st := { st with mediaStream := some stream }
    let st :=
      match st.streamVideo with
      | none => st
      | some _ => { st with streamVideo := some (some stream), calls := st.calls ++ [BrowserCall.videoPlay] }
    let st := updateStreamStatus st "Live" "success"
    let st := { st with startStreamDisabled := true, stopStreamDisabled := false }
    let st := { st with streamStartTime := some now }
    let st := { st with
      streamDurationInterval := some handle,
      calls := st.calls ++ [BrowserCall.setInterval handle 1000] }
    st.notify "Stream started successfully!" "success"
  | .error message =>
    let st := st.notify ("Failed to start stream: " ++ message) "error"
    updateStreamStatus st "Error" "error"

/-- The function `stopStream` of `streaming.js`. -/
def stopStream (st : Streamer) : Streamer :=
  match st.mediaStream with
  | none => st
  | some stream =>
    let stops := stream.tracks.map (fun track : MediaTrack => BrowserCall.trackStop track.id)
    let st := { st with calls := st.calls ++ stops }
    let st := { st with mediaStream := none }
    let st :=
      match st.streamVideo with
      | none => st
      | some _ => { st with streamVideo := some none }
    let st := updateStreamStatus st "Offline" "default"
    let st := { st with startStreamDisabled := false, stopStreamDisabled := true }
    let st :=
      match st.streamDurationInterval with
      | none => st
      | some handle =>
        { st with calls := st.calls ++ [BrowserCall.clearInterval handle], streamDurationInterval := none }
    let st :=
      match st.streamDuration with
      | none => st
      | some _ => { st with streamDuration := some "00:00:00" }
    st.notify "Stream stopped" "info"

/-- The function `changeQuality` of `streaming.js`; the timer's callback is
`startStream`. -/
def changeQuality (st : Streamer) : Streamer :=
  match st.mediaStream with
  | none => st
  | some _ =>
    let st := stopStream st
    { st with calls := st.calls ++ [BrowserCall.setTimeoutStartStream 500] }

/-! ## Studio (`studio.js`) -/

/-- A `Blob`: its bytes and its MIME type. -/
structure Blob where
  bytes : List Nat
  type : String
  deriving DecidableEq, Repr

/-- The property `size` of a `Blob`. -/
def Blob.size (blob : Blob) : Nat :=
  blob.bytes.length

/-- The constructor `new Blob(parts, { type })`: the parts' bytes in order. -/
def Blob.ofParts (parts : List Blob) (type : String) : Blob :=
  ⟨(parts.map (fun part => part.bytes)).flatten, type⟩

/-- An entry of the array `recordings`. -/
structure Recording where
  id : Nat
  name : String
  blob : Blob
  url : String
  date : String
  deriving DecidableEq, Repr

/-- A `.recording-item` block of `#recordingsList`: the name and date shown and
the id its two buttons pass on. -/
structure RecordingItem where
  name : String
  date : String
  id : Nat
  deriving DecidableEq, Repr

/-- The element `#recordingsList`: whether it still shows its `.empty-state`
child, and the recording items below it. -/
structure RecordingsList where
  emptyState : Bool
  items : List RecordingItem
  deriving DecidableEq, Repr

/-- The module variables of `studio.js` and the part of the page its functions
touch. `audioContext` tells whether a context was made, `analyser` holds the
`fftSize` of the analyser node, `mediaRecorder` the stream the recorder was
made on. The buttons, used without a test, are on the page; `recordingsList`
and `audioCanvas`, which the code tests, may be absent; `barrotApp` tells
whether `window.BarrotApp` is defined. `calls` lists the browser calls made so
far. -/
structure Studio where
  audioContext : Bool
  mediaRecorder : Option MediaStream
  audioStream : Option MediaStream
  recordedChunks : List Blob
  analyser : Option Nat
  animationId : Option ℕ+
  isRecording : Bool
  isPaused : Bool
  recordings : List Recording
  recordBtnDisabled : Bool
  recordBtnPulse : Bool
  pauseBtnDisabled : Bool
  pauseBtnHtml : String
  stopRecBtnDisabled : Bool
  playbackBtnDisabled : Bool
  downloadBtnDisabled : Bool
  recordingsList : Option RecordingsList
  audioCanvas : Bool
  barrotApp : Bool
  calls : List BrowserCall
  deriving DecidableEq, Repr

/-- `window.BarrotApp.showNotification(message, type)` behind the test
`if (window.BarrotApp)`. -/
def Studio.notify (st : Studio) (message type : String) : Studio :=
  if st.barrotApp then
    { st with calls := st.calls ++ [BrowserCall.showNotification message type] }
  else st

/-- The markup `pauseRecording` and `stopRecording` give the pause button. -/
def pauseHtml : String :=
  "<i class=\"fas fa-pause\"></i> Pause"

/-- The markup `pauseRecording` gives the pause button while paused. -/
def resumeHtml : String :=
  "<i class=\"fas fa-play\"></i> Resume"

/-- The function `visualizeAudio` of `studio.js` up to the first run of `draw`:
the frame request whose handle `animationId` keeps. What `draw` paints on the
canvas is outside the embedding. -/
def visualizeAudio (st : Studio) (frame : ℕ+) : Studio :=
  match st.analyser with
  | none => st
  | some _ =>
    if !st.audioCanvas then st
    else
      { st with
        animationId := some frame,
        calls := st.calls ++ [BrowserCall.requestAnimationFrame frame] }

/-- The function `startRecording` of `studio.js`, run to its end with no other
handler in between. `outcome` is how the promise of `getUserMedia` settles
(the stream, or the `message` of the error it rejects with), `frame` the handle
`requestAnimationFrame` returns. -/
def startRecording (st : Studio) (outcome : Except String MediaStream) (frame : ℕ+) : Studio :=
  let st := { st with calls := st.calls ++ [BrowserCall.getUserMedia ⟨.any, none⟩] }
  match outcome with
  | .ok stream =>
    let st := { st with audioStream := some stream }
    let st := { st with audioContext := true }
    let st := { st with analyser := some 2048 }
    let st := { st with mediaRecorder := some stream, recordedChunks := [] }
    let st := { st with calls := st.calls ++ [BrowserCall.recorderStart], isRecording := true }
    let st := { st with
      recordBtnDisabled := true, pauseBtnDisabled := false, stopRecBtnDisabled := false,
      recordBtnPulse := true }
    let st := visualizeAudio st frame
    st.notify "Recording started!" "success"
  | .error message =>
    st.notify ("Failed to start recording: " ++ message) "error"

/-- The handler `mediaRecorder.ondataavailable` set in `startRecording`. -/
def ondataavailable (st : Studio) (data : Blob) : Studio :=
  if data.size > 0 then { st with recordedChunks := st.recordedChunks ++ [data] } else st

/-- The function `addRecordingToList` of `studio.js`. -/
def addRecordingToList (st : Studio) (recording : Recording) : Studio :=
  match st.recordingsList with
  | none => st
  | some list =>
    let item : RecordingItem := ⟨recording.name, recording.date, recording.id⟩
    { st with recordingsList := some ⟨false, list.items ++ [item]⟩ }

/-- The handler `mediaRecorder.onstop` set in `startRecording`. `now` is
`Date.now()`, `url` what `URL.createObjectURL` returns for the blob, `date` the
text of `new Date().toLocaleString()`. -/
def onstop (st : Studio) (now : Nat) (url date : String) : Studio :=
  let blob := Blob.ofParts st.recordedChunks "audio/webm"
  let recording : Recording :=
    ⟨now, "Recording " ++ renderNat (st.recordings.length + 1), blob, url, date⟩
  let st := { st with recordings := st.recordings ++ [recording] }
  let st := addRecordingToList st recording
  { st with playbackBtnDisabled := false, downloadBtnDisabled := false }

/-- The function `pauseRecording` of `studio.js`. -/
def pauseRecording (st : Studio) : Studio :=
  if st.mediaRecorder.isSome && st.isRecording then
    if st.isPaused then
      { st with
        calls := st.calls ++ [BrowserCall.recorderResume],
        isPaused := false,
        pauseBtnHtml := pauseHtml }
    else
      { st with
        calls := st.calls ++ [BrowserCall.recorderPause],
        isPaused := true,
        pauseBtnHtml := resumeHtml }
  else st

/-- The function `stopRecording` of `studio.js`. -/
def stopRecording (st : Studio) : Studio :=
  if st.mediaRecorder.isSome && st.isRecording then
    let st := { st with calls := st.calls ++ [BrowserCall.recorderStop] }
    let st := { st with isRecording := false, isPaused := false }
    let st :=
      match st.audioStream with
      | none => st
      | some stream =>
        let stops := stream.tracks.map (fun track : MediaTrack => BrowserCall.trackStop track.id)
        { st with calls := st.calls ++ stops }
    let st :=
      match st.animationId with
      | none => st
      | some frame => { st with calls := st.calls ++ [BrowserCall.cancelAnimationFrame frame] }
    let st := { st with
      recordBtnDisabled := false, pauseBtnDisabled := true, stopRecBtnDisabled := true,
      recordBtnPulse := false, pauseBtnHtml := pauseHtml }
    st.notify "Recording stopped!" "info"
  else st

/-- The function `playbackRecording` of `studio.js`. -/
def playbackRecording (st : Studio) : Studio :=
  match st.recordings.getLast? with
  | none => st
  | some latestRecording =>
    let st := { st with calls := st.calls ++ [BrowserCall.audioPlay latestRecording.url] }
    st.notify "Playing recording..." "info"

/-- The function `downloadRecording` of `studio.js`. -/
def downloadRecording (st : Studio) : Studio :=
  match st.recordings.getLast? with
  | none => st
  | some latestRecording =>
    let click := BrowserCall.downloadClick latestRecording.url (latestRecording.name ++ ".webm")
    let st := { st with calls := st.calls ++ [click] }
    st.notify "Downloading recording..." "success"

/-- A stored value and a JSON value are the same value: the same whole number,
the same text, or both `null`. -/
def sameValue : SqlVal → JsVal → Bool
  | .null, .null => true
  | .int n, .num m => n == m
  | .text s, .str t => s == t
  | _, _ => false

/-- The numeric conversion of a text that reads as no number: it stays text. -/
def textStaysText (s : String) : SqlVal :=
  SqlVal.text s

/-- The text of a whole number held as a REAL, such as `3000000000.0`. -/
def wholeRealText (n : Int) : String :=
  renderInt n ++ ".0"

/-- An environment for worked examples on ASCII messages, on texts that are
integers or no numbers, and on whole numbers below 10^15. -/
def Env.sample (sqlNow dateNow : Nat) (dbError : Option String) : Env :=
  ⟨sqlNow, dateNow, dbError, asciiToLowerCase, textStaysText, wholeRealText⟩

/-- A required field that is missing (absent or `null`) or empty (the empty
string), as the specification words the validation error. -/
def isMissingOrEmpty (v : JsVal) : Bool :=
  v == JsVal.undefined || v == JsVal.null || v == JsVal.str ""

/-- The Streamer as the script leaves it when loaded: the three module
variables are `null`, on a page that has every element and shows the offline
state. -/
def Streamer.initial : Streamer :=
  { mediaStream := none, streamStartTime := none, streamDurationInterval := none,
    qualitySelector := some "720p", streamVideo := some none,
    streamStatus := some ⟨"Offline", "#a0aec0"⟩, streamDuration := some "00:00:00",
    startStreamDisabled := false, stopStreamDisabled := true, barrotApp := true, calls := [] }

/-- The Studio as the script leaves it when loaded: the module variables at
their initial values, on a page that has every element, nothing recorded. -/
def Studio.initial : Studio :=
  { audioContext := false, mediaRecorder := none, audioStream := none, recordedChunks := [],
    analyser := none, animationId := none, isRecording := false, isPaused := false,
    recordings := [], recordBtnDisabled := false, recordBtnPulse := false,
    pauseBtnDisabled := true, pauseBtnHtml := pauseHtml, stopRecBtnDisabled := true,
    playbackBtnDisabled := true, downloadBtnDisabled := true,
    recordingsList := some ⟨true, []⟩, audioCanvas := true, barrotApp := true, calls := [] }

/-- A stream of one microphone track and one camera track. -/
def sampleStream : MediaStream :=
  ⟨[⟨1, .audio, true⟩, ⟨2, .video, true⟩]⟩

/-! ## Renderer (`rendering.js`) -/

/-- The geometry `createShape` builds for a mesh: `BoxGeometry(2, 2, 2)`,
`SphereGeometry(1.5, 32, 32)`, `TorusGeometry(1.2, 0.5, 16, 100)` or
`ConeGeometry(1.5, 3, 32)`. -/
inductive Geometry where
  | box
  | sphere
  | torus
  | cone
  deriving DecidableEq, Repr

/-- The arguments of the constructor of each geometry, as the source writes
them. -/
def Geometry.parameters : Geometry → List ℚ
  | .box => [2, 2, 2]
  | .sphere => [3 / 2, 32, 32]
  | .torus => [6 / 5, 1 / 2, 16, 100]
  | .cone => [3 / 2, 3, 32]

/-- A `MeshPhongMaterial` as `createShape` builds it. -/
structure Material where
  color : String
  shininess : Nat
  specular : Nat
  deriving DecidableEq, Repr

/-- A `THREE.Mesh`. `id` stands for the identity of the object: meshes are
numbered in the order they are made. Its rotation, which only the animation
and the pointer handlers change, is outside the embedding. -/
structure Mesh where
  id : Nat
  geometry : Option Geometry
  material : Option Material
  deriving DecidableEq, Repr

/-- A child of the scene: one of the lights `init3DRendering` adds (colour,
intensity, position), or a reference to the mesh of that identity. -/
inductive SceneObject where
  | ambientLight (color : Nat) (intensity : ℚ)
  | pointLight (color : Nat) (intensity : ℚ) (x y z : Int)
  | mesh (id : Nat)
  deriving DecidableEq, Repr

/-- A call the renderer module makes on a three.js resource or into
`window.BarrotApp`, in the order made; a geometry or material is named by the
mesh it belongs to. -/
inductive RenderCall where
  | geometryDispose (mesh : Nat)
  | materialDispose (mesh : Nat)
  | showNotification (message type : String)
  | addResizeListener
  deriving DecidableEq, Repr

/-- The module variables of `rendering.js` and the part of the page its
functions touch. `scene` holds the children of the scene, `camera` the
position of the camera, `renderer` tells whether the renderer was made; each
is absent until `init3DRendering` has run on a page with a canvas. The three
controls hold their values and may be absent from the page; `barrotApp` tells
whether `window.BarrotApp` is defined; `meshSeq` is the number of meshes made
so far. -/
structure Renderer where
  scene : Option (List SceneObject)
  camera : Option (Int × Int × Int)
  renderer : Bool
  currentMesh : Option Mesh
  rotationSpeedValue : ℚ
  shapeSelector : Option String
  rotationSpeed : Option String
  colorPicker : Option String
  barrotApp : Bool
  meshSeq : Nat
  calls : List RenderCall
  deriving DecidableEq, Repr

/-- The geometry the `switch` of `createShape` selects for a shape name. -/
def geometryFor (shapeType : String) : Geometry :=
  if shapeType == "cube" then .box
  else if shapeType == "sphere" then .sphere
  else if shapeType == "torus" then .torus
  else if shapeType == "cone" then .cone
  else .box

/-- The function `createShape` of `rendering.js`. The result is `.error` when
the function throws, which it does on using the scene while there is none; the
state is then the one reached at the throw. -/
def createShape (st : Renderer) (shapeType : String) : Except Renderer Renderer :=
  let removed : Except Renderer Renderer :=
    match st.currentMesh with
    | none => .ok st
    | some mesh =>
      match st.scene with
      | none => .error st
      | some children =>
        let st := { st with scene := some (children.erase (SceneObject.mesh mesh.id)) }
        let st :=
          match mesh.geometry with
          | none => st
          | some _ => { st with calls := st.calls ++ [RenderCall.geometryDispose mesh.id] }
        let st :=
          match mesh.material with
          | none => st
          | some _ => { st with calls := st.calls ++ [RenderCall.materialDispose mesh.id] }
        .ok st
  match removed with
  | .error st => .error st
  | .ok st =>
    let color := st.colorPicker.getD "#00ff88"
    let geometry := geometryFor shapeType
    let material : Material := ⟨color, 100, 0x444444⟩
    let mesh : Mesh := ⟨st.meshSeq + 1, some geometry, some material⟩
    let st := { st with currentMesh := some mesh, meshSeq := st.meshSeq + 1 }
    match st.scene with
    | none => .error st
    | some children => .ok { st with scene := some (children ++ [SceneObject.mesh mesh.id]) }

/-- The function `init3DRendering` of `rendering.js`; `canvas` tells whether
the page has `#renderCanvas`. The projection of the camera and the size of the
renderer, computed from the size of the canvas, are outside the embedding. -/
def init3DRendering (st : Renderer) (canvas : Bool) : Except Renderer Renderer :=
  if !canvas then .ok st
  else
    let st := { st with scene := some [] }
    let st := { st with camera := some (0, 0, 5) }
    let st := { st with renderer := true }
    let lights : List SceneObject :=
      [.ambientLight 0xffffff (1 / 2), .pointLight 0xffffff 1 5 5 5,
       .pointLight 0x00ff88 (1 / 2) (-5) (-5) 5]
    let st := { st with scene := st.scene.map (fun children => children ++ lights) }
    match createShape st "cube" with
    | .error st => .error st
    | .ok st => .ok { st with calls := st.calls ++ [RenderCall.addResizeListener] }

/-- The function `changeShape` of `rendering.js`. -/
def changeShape (st : Renderer) : Except Renderer Renderer :=
  match st.shapeSelector with
  | none => .ok st
  | some value =>
    match createShape st value with
    | .error st => .error st
    | .ok st =>
      if st.barrotApp then
        let note := RenderCall.showNotification ("Shape changed to " ++ value) "success"
        .ok { st with calls := st.calls ++ [note] }
      else .ok st

/-- The function `resetRendering` of `rendering.js`. -/
def resetRendering (st : Renderer) : Except Renderer Renderer :=
  let st := { st with shapeSelector := st.shapeSelector.map (fun _ => "cube") }
  let st :=
    match st.rotationSpeed with
    | none => st
    | some _ => { st with rotationSpeed := some "50", rotationSpeedValue := 1 / 100 }
  let st := { st with colorPicker := st.colorPicker.map (fun _ => "#00ff88") }
  match st.camera with
  | none => .error st
  | some _ =>
    let st := { st with camera := some (0, 0, 5) }
    match createShape st "cube" with
    | .error st => .error st
    | .ok st =>
      if st.barrotApp then
        let note := RenderCall.showNotification "Rendering reset to defaults" "info"
        .ok { st with calls := st.calls ++ [note] }
      else .ok st

/-- An event on the rendering page that leads to `createShape`: a direct call
with a shape name, the user choosing `value` in `#shapeSelector` (the `change`
handler is `changeShape`), or a click on the reset button. -/
inductive RenderEvent where
  | createShape (shapeType : String)
  | selectShape (value : String)
  | resetRender
  deriving DecidableEq, Repr

/-- The renderer after one event. -/
def Renderer.step (st : Renderer) : RenderEvent → Except Renderer Renderer
  | .createShape shapeType => createShape st shapeType
  | .selectShape value =>
    changeShape { st with shapeSelector := st.shapeSelector.map (fun _ => value) }
  | .resetRender => resetRendering st

/-- The renderer after a sequence of events, stopping at the first that
throws. -/
def Renderer.run (st : Renderer) : List RenderEvent → Except Renderer Renderer
  | [] => .ok st
  | event :: events =>
    match st.step event with
    | .error st => .error st
    | .ok st => Renderer.run st events

/-- The module as the script leaves it when loaded, before
`init3DRendering`: no scene, camera, renderer or mesh, on a page that has the
three controls. -/
def Renderer.loaded : Renderer :=
  { scene := none, camera := none, renderer := false, currentMesh := none,
    rotationSpeedValue := 1 / 100, shapeSelector := some "cube", rotationSpeed := some "50",
    colorPicker := some "#00ff88", barrotApp := true, meshSeq := 0, calls := [] }

/-- The identities of the meshes among the children of a scene. -/
def meshesOf : List SceneObject → List Nat
  | [] => []
  | .mesh id :: rest => id :: meshesOf rest
  | _ :: rest => meshesOf rest

/-- The renderer is set up with one active mesh: there are a scene and a
camera, the only mesh among the children of the scene is `currentMesh`, which
was made before now and has its geometry and material. -/
def Renderer.ready (st : Renderer) : Bool :=
  match st.scene, st.camera, st.currentMesh with
  | some children, some _, some mesh =>
    meshesOf children == [mesh.id] && decide (mesh.id ≤ st.meshSeq) &&
      mesh.geometry.isSome && mesh.material.isSome
  | _, _, _ => false

/-- Between the states `before` and `after` the active mesh of `before` is
still the active mesh, or a mesh made later is and the geometry and the
material of the former one have been disposed of; calls are only added. -/
def Renderer.replaced (before after : Renderer) : Prop :=
  before.meshSeq ≤ after.meshSeq ∧
  (∃ extra, after.calls = before.calls ++ extra) ∧
  ∀ mesh, before.currentMesh = some mesh →
    after.currentMesh = some mesh ∨
    ((∃ later, after.currentMesh = some later ∧ before.meshSeq < later.id) ∧
      RenderCall.geometryDispose mesh.id ∈ after.calls ∧
      RenderCall.materialDispose mesh.id ∈ after.calls)

/-! ## Lemmas on the store engine -/

theorem selectNewest_ok {α : Type} (user_id : α → SqlVal) (created_at : α → Nat) (env : Env)
    (table : List α) (userId : Option String) (limit : Option Int) (rows : List α)
    (h : selectNewest user_id created_at env table (userFilter userId) limit = .ok rows) :
    ∃ n, limit = some n ∧ env.dbError = none ∧ -2 ^ 63 < n ∧ n < 2 ^ 63 ∧
      rows = (if n < 0 then
          (matchingRows env user_id table userId).insertionSort
            (fun a b => created_at a ≥ created_at b)
        else ((matchingRows env user_id table userId).insertionSort
          (fun a b => created_at a ≥ created_at b)).take n.toNat) := by
  unfold selectNewest at h
  cases hE : env.dbError with
  | some e => simp [hE] at h
  | none =>
    cases limit with
    | none => simp [hE] at h
    | some n =>
      simp only [hE] at h
      by_cases hr : n ≤ -2 ^ 63 ∨ 2 ^ 63 ≤ n
      · rw [if_pos hr] at h
        cases h
      · refine ⟨n, rfl, rfl, by omega, by omega, ?_⟩
        rw [if_neg hr] at h
        injection h with h
        rw [← h]
        unfold matchingRows
        cases userFilter userId <;> rfl

theorem selectNewest_succeeds {α : Type} (user_id : α → SqlVal) (created_at : α → Nat)
    (env : Env) (table : List α) (userId : Option String) (n : Int) (hE : env.dbError = none)
    (hlo : -2 ^ 63 < n) (hhi : n < 2 ^ 63) :
    selectNewest user_id created_at env table (userFilter userId) (some n) =
      .ok (if n < 0 then
          (matchingRows env user_id table userId).insertionSort
            (fun a b => created_at a ≥ created_at b)
        else ((matchingRows env user_id table userId).insertionSort
          (fun a b => created_at a ≥ created_at b)).take n.toNat) := by
  have hr : ¬ (n ≤ -2 ^ 63 ∨ 2 ^ 63 ≤ n) := by omega
  unfold selectNewest matchingRows
  simp only [hE]
  rw [if_neg hr]

theorem selectNewest_out_of_range {α : Type} (user_id : α → SqlVal) (created_at : α → Nat)
    (env : Env) (table : List α) (filter : Option String) (n : Int)
    (hr : n ≤ -2 ^ 63 ∨ 2 ^ 63 ≤ n) :
    ∃ e, selectNewest user_id created_at env table filter (some n) = .error e := by
  unfold selectNewest
  cases hE : env.dbError with
  | some e => exact ⟨e, rfl⟩
  | none =>
    refine ⟨"SQLITE_MISMATCH: datatype mismatch", ?_⟩
    simp only []
    rw [if_pos hr]

theorem selectNewest_length {α : Type} (user_id : α → SqlVal) (created_at : α → Nat) (env : Env)
    (table : List α) (userId : Option String) (n : Int) (hn : 0 ≤ n) (rows : List α)
    (h : selectNewest user_id created_at env table (userFilter userId) (some n) = .ok rows) :
    rows.length ≤ n.toNat := by
  obtain ⟨m, hm, -, -, -, hrows⟩ := selectNewest_ok user_id created_at env table userId _ rows h
  injection hm with hm
  subst hm
  rw [hrows, if_neg (not_lt.mpr hn)]
  exact List.length_take_le _ _

/-! ## Chat message submission -/

/-- C1 (as amended): a message that is the empty string, or any other falsy
value such as a missing field, gets status 400 from `POST /api/chat/message`
and the store is left as it was; text that is only white space is dropped by
the client, where `sendChatMessage` trims the input and returns without
showing or scheduling anything. -/
theorem empty_message_rejected (env : Env) (db : Store) (userId : JsVal) :
    (∀ message : JsVal, message.truthy = false →
      postChatMessage env db message userId = (⟨400, .error "Message is required"⟩, db)) ∧
    postChatMessage env db (.str "") userId = (⟨400, .error "Message is required"⟩, db) ∧
    (∀ (page : ChatPage) (value : String), page.chatInput = some value → jsTrim value = "" →
      sendChatMessage page = page) := by
  refine ⟨?_, ?_, ?_⟩
  · intro message h
    simp [postChatMessage, h]
  · simp [postChatMessage, JsVal.truthy]
  · intro page value hv ht
    simp [sendChatMessage, hv, ht]

/-- C1, witness: the empty string and a missing field at the handler, a blank
input at the client. -/
theorem empty_message_rejected_witness :
    postChatMessage (Env.sample 5 5000 none) Store.empty .undefined (.num 7) =
      (⟨400, .error "Message is required"⟩, Store.empty) ∧
    postChatMessage (Env.sample 5 5000 none) Store.empty (.str "") (.num 7) =
      (⟨400, .error "Message is required"⟩, Store.empty) ∧
    sendChatMessage ⟨some " \t ", some [], []⟩ = ⟨some " \t ", some [], []⟩ :=
  ⟨(empty_message_rejected (Env.sample 5 5000 none) Store.empty (.num 7)).1 .undefined (by decide),
   (empty_message_rejected (Env.sample 5 5000 none) Store.empty (.num 7)).2.1,
   (empty_message_rejected (Env.sample 5 5000 none) Store.empty (.num 7)).2.2
     ⟨some " \t ", some [], []⟩ " \t " rfl (by decide)⟩

/-- C1, counterexample: the message `" "` consists only of white space, yet
the handler answers 200 and inserts a row into `chat_messages`. -/
theorem whitespace_message_is_stored :
    jsTrim " " = "" ∧
    postChatMessage (Env.sample 5 5000 none) Store.empty (.str " ") .undefined =
      (⟨200, .chatMessage 1 " " serverDefaultResponse 5000⟩,
       { Store.empty with
         chat_messages := [⟨1, .null, " ", serverDefaultResponse, 5⟩], chatSeq := 1 }) := by
  decide

/-! ## Page size of the list handlers -/

/-- C2 (as amended): when the parsed `limit` is `n ≥ 0`, `GET /api/chat/history`
and `GET /api/recordings` return at most `n` rows; an omitted parameter is
parsed as 50; when `n` is negative and above -2^63 and the query succeeds, the
engine sets no upper bound and every matching row is returned; a limit at or
beyond -2^63 or 2^63, which the engine cannot take as a 64-bit integer, is
answered 500. -/
theorem rows_at_most_limit (env : Env) (db : Store) (userId limit : Option String) (n : Int)
    (h : boundLimit limit = some n) :
    boundLimit none = some 50 ∧
    (0 ≤ n →
      ((getChatHistory env db userId limit).body.rowCount : Int) ≤ n ∧
      ((getRecordings env db userId limit).body.rowCount : Int) ≤ n) ∧
    (n < 0 → -2 ^ 63 < n → env.dbError = none →
      (getChatHistory env db userId limit).body.rowCount =
        (matchingRows env ChatRow.user_id db.chat_messages userId).length ∧
      (getRecordings env db userId limit).body.rowCount =
        (matchingRows env RecordingRow.user_id db.recordings userId).length) ∧
    (n ≤ -2 ^ 63 ∨ 2 ^ 63 ≤ n →
      getChatHistory env db userId limit = ⟨500, .error "Failed to fetch history"⟩ ∧
      getRecordings env db userId limit = ⟨500, .error "Failed to fetch recordings"⟩) := by
  refine ⟨by decide, ?_, ?_, ?_⟩
  · intro hn
    constructor
    · unfold getChatHistory
      rw [h]
      cases hs : selectNewest ChatRow.user_id ChatRow.created_at env db.chat_messages
          (userFilter userId) (some n) with
      | error e => simpa [Body.rowCount] using hn
      | ok rows =>
        have := selectNewest_length _ _ _ _ _ n hn rows hs
        simp only [Body.rowCount]
        omega
    · unfold getRecordings
      rw [h]
      cases hs : selectNewest RecordingRow.user_id RecordingRow.created_at env db.recordings
          (userFilter userId) (some n) with
      | error e => simpa [Body.rowCount] using hn
      | ok rows =>
        have := selectNewest_length _ _ _ _ _ n hn rows hs
        simp only [Body.rowCount]
        omega
  · intro hn hlo hE
    constructor
    · unfold getChatHistory
      rw [h, selectNewest_succeeds _ _ env _ userId n hE hlo (by omega)]
      simp [hn, Body.rowCount, List.length_insertionSort]
    · unfold getRecordings
      rw [h, selectNewest_succeeds _ _ env _ userId n hE hlo (by omega)]
      simp [hn, Body.rowCount, List.length_insertionSort]
  · intro hr
    constructor
    · obtain ⟨e, he⟩ := selectNewest_out_of_range ChatRow.user_id ChatRow.created_at env
        db.chat_messages (userFilter userId) n hr
      simp [getChatHistory, h, he]
    · obtain ⟨e, he⟩ := selectNewest_out_of_range RecordingRow.user_id RecordingRow.created_at env
        db.recordings (userFilter userId) n hr
      simp [getRecordings, h, he]

/-- C2, witness: `limit=1` on a table of two rows. -/
theorem rows_at_most_limit_witness :
    boundLimit (some "1") = some 1 ∧
    ((getChatHistory (Env.sample 9 9000 none)
        ⟨[], [⟨1, .null, "a", "b", 5⟩, ⟨2, .null, "c", "d", 7⟩], [], [], 0, 2, 0, 0⟩
        none (some "1")).body.rowCount : Int) ≤ 1 :=
  ⟨by decide,
   ((rows_at_most_limit (Env.sample 9 9000 none)
      ⟨[], [⟨1, .null, "a", "b", 5⟩, ⟨2, .null, "c", "d", 7⟩], [], [], 0, 2, 0, 0⟩
      none (some "1") 1 (by decide)).2.1 (by decide)).1⟩

/-- C2, counterexample: `limit=-1` is parsed as -1 and two rows come back,
more than the limit. -/
theorem negative_limit_returns_all :
    boundLimit (some "-1") = some (-1) ∧
    getChatHistory (Env.sample 9 9000 none)
        ⟨[], [⟨1, .null, "a", "b", 5⟩, ⟨2, .null, "c", "d", 7⟩], [], [], 0, 2, 0, 0⟩
        none (some "-1") =
      ⟨200, .messages [⟨2, .null, "c", "d", 7⟩, ⟨1, .null, "a", "b", 5⟩]⟩ ∧
    ¬ (((getChatHistory (Env.sample 9 9000 none)
        ⟨[], [⟨1, .null, "a", "b", 5⟩, ⟨2, .null, "c", "d", 7⟩], [], [], 0, 2, 0, 0⟩
        none (some "-1")).body.rowCount : Int) ≤ -1) := by
  decide

/-! ## Lemmas on keys and their decimal text -/

theorem le_foldl_max (ids : List Nat) (a : Nat) :
    a ≤ ids.foldl max a ∧ ∀ x ∈ ids, x ≤ ids.foldl max a := by
  induction ids generalizing a with
  | nil => simp
  | cons y ys ih =>
    obtain ⟨h1, h2⟩ := ih (max a y)
    refine ⟨le_trans (le_max_left a y) h1, ?_⟩
    intro x hx
    rcases List.mem_cons.mp hx with rfl | hx
    · exact le_trans (le_max_right a x) h1
    · exact h2 x hx

theorem lt_nextRowid (seq : Nat) (ids : List Nat) (x : Nat) (hx : x ∈ ids) :
    x < nextRowid seq ids := by
  have := (le_foldl_max ids 0).2 x hx
  unfold nextRowid
  omega

theorem digit_char_facts :
    ∀ d, d < 10 → (Char.ofNat (48 + d)).isDigit = true ∧ (Char.ofNat (48 + d)).toNat - 48 = d ∧
      Char.ofNat (48 + d) ≠ '-' ∧ Char.ofNat (48 + d) ≠ '+' := by
  decide

theorem decimalDigits_spec (fuel n : Nat) (acc : List Char) (hf : n < fuel)
    (hacc : acc.all Char.isDigit = true) :
    (decimalDigits fuel n acc).all Char.isDigit = true ∧
    (∃ c rest, decimalDigits fuel n acc = c :: rest ∧ c ≠ '-' ∧ c ≠ '+') ∧
    (decimalDigits fuel n acc).foldl (fun v c => v * 10 + (c.toNat - 48)) 0 =
      acc.foldl (fun v c => v * 10 + (c.toNat - 48)) n := by
  induction fuel generalizing n acc with
  | zero => omega
  | succ fuel ih =>
    obtain ⟨hd, hv, hm, hp⟩ := digit_char_facts (n % 10) (Nat.mod_lt _ (by decide))
    unfold decimalDigits
    by_cases h0 : n / 10 = 0
    · have hn : n % 10 = n := by omega
      simp only [h0, if_true]
      refine ⟨by simp [hd, hacc], ⟨_, _, rfl, hm, hp⟩, ?_⟩
      rw [List.foldl_cons, hv, hn]
      simp
    · simp only [h0, if_false]
      have := ih (n / 10) (Char.ofNat (48 + n % 10) :: acc) (by omega) (by simp [hd, hacc])
      refine ⟨this.1, this.2.1, ?_⟩
      rw [this.2.2]
      simp only [List.foldl_cons, hv]
      congr 1
      omega

theorem sqlIntegerLiteral_renderNat (n : Nat) : sqlIntegerLiteral (renderNat n) = some (n : Int) := by
  obtain ⟨hall, ⟨c, rest, hcr, hm, hp⟩, hval⟩ := decimalDigits_spec (n + 1) n [] (by omega) rfl
  have hdata : (renderNat n).data = c :: rest := hcr
  have hdv : decimalValue (c :: rest) = some n := by
    unfold decimalValue
    rw [← hcr, hall]
    simp only [hcr, List.isEmpty_cons, Bool.not_true, Bool.or_self, Bool.false_eq_true, if_false]
    rw [← hcr, hval]
    rfl
  unfold sqlIntegerLiteral
  rw [hdata]
  split
  · rename_i heq
    injection heq with h1 _
    exact absurd h1 hm
  · rename_i heq
    injection heq with h1 _
    exact absurd h1 hp
  · simp [hdv]

theorem keyEqParam_renderNat (env : Env) (key n : Nat) :
    keyEqParam env key (renderNat n) = ((n : Int) == (key : Int)) := by
  simp only [keyEqParam, sqlIntegerLiteral_renderNat]

/-! ## Users -/

theorem postUsers_store_of_not_created (env : Env) (db : Store) (username email : JsVal)
    (h : (postUsers env db username email).1.status ≠ 201) :
    (postUsers env db username email).2 = db := by
  unfold postUsers at h ⊢
  split
  · rfl
  · rename_i hv
    rw [if_neg hv] at h
    split
    · split <;> rfl
    · rename_i heq
      simp [heq] at h

/-- C3: when the store already holds a user with username `u` or with email
`e`, `POST /api/users` with that username and email, both non-empty, answers
409 when the engine meets no other failure; and in every case (a field empty,
the engine failing) the store is left as it was: no second row. -/
theorem duplicate_user_conflict (env : Env) (db : Store) (u e : String)
    (hdup : ∃ r ∈ db.users, r.username = u ∨ r.email = e) :
    (u ≠ "" → e ≠ "" → env.dbError = none →
      postUsers env db (.str u) (.str e) =
        (⟨409, .error "Username or email already exists"⟩, db)) ∧
    (postUsers env db (.str u) (.str e)).2 = db := by
  have key : u ≠ "" → e ≠ "" → env.dbError = none →
      postUsers env db (.str u) (.str e) =
        (⟨409, .error "Username or email already exists"⟩, db) := by
    intro hu he hE
    obtain ⟨r, hr, hre⟩ := hdup
    have h1 : includes "SQLITE_CONSTRAINT: UNIQUE constraint failed: users.username"
        "UNIQUE constraint" = true := by decide
    have h2 : includes "SQLITE_CONSTRAINT: UNIQUE constraint failed: users.email"
        "UNIQUE constraint" = true := by decide
    by_cases hun : db.users.any (fun r => r.username == u) = true
    · simp [postUsers, JsVal.truthy, hu, he, insertUser, hE, toTextColumn, hun, h1]
    · have hem : db.users.any (fun r => r.email == e) = true := by
        rcases hre with hre | hre
        · exact absurd (List.any_eq_true.mpr ⟨r, hr, by simp [hre]⟩) hun
        · exact List.any_eq_true.mpr ⟨r, hr, by simp [hre]⟩
      simp [postUsers, JsVal.truthy, hu, he, insertUser, hE, toTextColumn, hun, hem, h2]
  refine ⟨key, ?_⟩
  apply postUsers_store_of_not_created
  intro h201
  obtain ⟨r, hr, hre⟩ := hdup
  unfold postUsers at h201
  split at h201
  · simp at h201
  · split at h201
    · split at h201 <;> simp at h201
    · rename_i lastID db2 heq
      unfold insertUser at heq
      split at heq
      · simp at heq
      · simp only [toTextColumn] at heq
        split at heq
        · simp at heq
        · split at heq
          · simp at heq
          · rename_i hnu hne
            rcases hre with hre | hre
            · exact hnu (List.any_eq_true.mpr ⟨r, hr, by simp [hre]⟩)
            · exact hne (List.any_eq_true.mpr ⟨r, hr, by simp [hre]⟩)

/-- C3, witness: the username `a` is taken, the email is new. -/
theorem duplicate_user_conflict_witness :
    postUsers (Env.sample 9 9000 none) ⟨[⟨1, "a", "a@x.com", 5⟩], [], [], [], 1, 0, 0, 0⟩
        (.str "a") (.str "b@x.com") =
      (⟨409, .error "Username or email already exists"⟩,
        ⟨[⟨1, "a", "a@x.com", 5⟩], [], [], [], 1, 0, 0, 0⟩) :=
  (duplicate_user_conflict (Env.sample 9 9000 none) ⟨[⟨1, "a", "a@x.com", 5⟩], [], [], [], 1, 0, 0, 0⟩
    "a" "b@x.com" ⟨⟨1, "a", "a@x.com", 5⟩, by simp, Or.inl rfl⟩).1
    (by decide) (by decide) rfl

/-- C4: for non-empty `u` and `e` that no user of the store has, `POST
/api/users` answers 201 with the next key as `id` and adds the row; `GET
/api/users/:id` with the decimal text of that id then answers 200 with the row
of exactly that username and email; on the empty store the id is 1. -/
theorem created_user_is_retrievable (env env2 : Env) (db : Store) (u e : String)
    (hu : u ≠ "") (he : e ≠ "") (hfresh : ∀ r ∈ db.users, r.username ≠ u ∧ r.email ≠ e)
    (hE : env.dbError = none) (hE2 : env2.dbError = none) :
    (postUsers env db (.str u) (.str e)).1 =
      ⟨201, .userCreated (nextRowid db.usersSeq (db.users.map (fun r => r.id))) (.str u) (.str e)⟩ ∧
    (postUsers env db (.str u) (.str e)).2.users =
      db.users ++ [⟨nextRowid db.usersSeq (db.users.map (fun r => r.id)), u, e, env.sqlNow⟩] ∧
    getUser env2 (postUsers env db (.str u) (.str e)).2
        (renderNat (nextRowid db.usersSeq (db.users.map (fun r => r.id)))) =
      ⟨200, .user ⟨nextRowid db.usersSeq (db.users.map (fun r => r.id)), u, e, env.sqlNow⟩⟩ ∧
    (db = Store.empty → nextRowid db.usersSeq (db.users.map (fun r => r.id)) = 1) := by
  have hnu : ¬ db.users.any (fun r => r.username == u) = true := by
    intro h
    obtain ⟨r, hr, hru⟩ := List.any_eq_true.mp h
    exact (hfresh r hr).1 (by simpa using hru)
  have hne : ¬ db.users.any (fun r => r.email == e) = true := by
    intro h
    obtain ⟨r, hr, hre⟩ := List.any_eq_true.mp h
    exact (hfresh r hr).2 (by simpa using hre)
  have hpost : postUsers env db (.str u) (.str e) =
      (⟨201, .userCreated (nextRowid db.usersSeq (db.users.map (fun r => r.id))) (.str u) (.str e)⟩,
       { db with
         users := db.users ++ [⟨nextRowid db.usersSeq (db.users.map (fun r => r.id)), u, e, env.sqlNow⟩],
         usersSeq := nextRowid db.usersSeq (db.users.map (fun r => r.id)) }) := by
    simp [postUsers, JsVal.truthy, hu, he, insertUser, hE, toTextColumn, hnu, hne]
  refine ⟨by rw [hpost], by rw [hpost], ?_, ?_⟩
  · rw [hpost]
    simp only [getUser, selectUser, hE2, keyEqParam_renderNat]
    rw [List.find?_append]
    have hold : db.users.find? (fun r =>
        ((nextRowid db.usersSeq (db.users.map (fun r => r.id)) : Nat) : Int) ==
          (r.id : Int)) = none := by
      rw [List.find?_eq_none]
      intro r hr hrid
      have hlt := lt_nextRowid db.usersSeq (db.users.map (fun r => r.id)) r.id
        (List.mem_map.mpr ⟨r, hr, rfl⟩)
      simp at hrid
      omega
    rw [hold]
    simp
  · intro hdb
    subst hdb
    decide

/-- C4, witness: the spec's scenario, user `a` with `a@x.com` on the empty
store, then `GET /api/users/1`. -/
theorem created_user_is_retrievable_witness :
    (postUsers (Env.sample 9 9000 none) Store.empty (.str "a") (.str "a@x.com")).1 =
      ⟨201, .userCreated 1 (.str "a") (.str "a@x.com")⟩ ∧
    getUser (Env.sample 12 12000 none) (postUsers (Env.sample 9 9000 none) Store.empty (.str "a") (.str "a@x.com")).2
      "1" = ⟨200, .user ⟨1, "a", "a@x.com", 9⟩⟩ :=
  have h := created_user_is_retrievable (Env.sample 9 9000 none) (Env.sample 12 12000 none) Store.empty
    "a" "a@x.com" (by decide) (by decide) (by simp [Store.empty]) rfl rfl
  ⟨h.1, h.2.2.1⟩

/-! ## Response generators -/

/-- C5: when the lower-cased input contains `stream`, `generateResponse`
returns the server's streaming help and `generateBarrotResponse` returns the
client's streaming help, for every value `Math.random` could give (and
whatever `toLowerCase` makes of the input otherwise). -/
theorem stream_keyword_deterministic (toLowerCase : String → String) (message : String)
    (h : includes (toLowerCase message) "stream" = true) :
    generateResponse toLowerCase message = serverStreamResponse ∧
    ∀ random : ℚ,
      generateBarrotResponse toLowerCase random message = some clientStreamResponse := by
  constructor
  · simp [generateResponse, h]
  · intro random
    simp [generateBarrotResponse, h]

/-- C5, witness: `Live STREAM tips`, with two different draws. -/
theorem stream_keyword_deterministic_witness :
    generateResponse asciiToLowerCase "Live STREAM tips" = serverStreamResponse ∧
    generateBarrotResponse asciiToLowerCase 0 "Live STREAM tips" = some clientStreamResponse ∧
    generateBarrotResponse asciiToLowerCase (3 / 4) "Live STREAM tips" =
      some clientStreamResponse :=
  have h := stream_keyword_deterministic asciiToLowerCase "Live STREAM tips" (by decide)
  ⟨h.1, h.2 0, h.2 (3 / 4)⟩

/-- C6: each generator returns the response of the first pair, in source
order, one of whose keywords occurs in the lower-cased input (`generateResponse`
over its 3 pairs, `generateBarrotResponse` over its 9), and otherwise its
fallback, whatever function lower-cases the input; `how do i record?`, the
lower-cased `How do I record?`, contains `record` and the later keyword `how`,
and both generators answer `How do I record?` with their recording response,
which contains the word `Recording`. -/
theorem first_matching_pair_wins (toLowerCase : String → String) :
    serverPairs.length = 3 ∧ clientPairs.length = 9 ∧
    (∀ message : String, generateResponse toLowerCase message =
      (firstMatch serverPairs (toLowerCase message)).getD serverDefaultResponse) ∧
    (∀ (random : ℚ) (message : String), generateBarrotResponse toLowerCase random message =
      match firstMatch clientPairs (toLowerCase message) with
      | some response => some response
      | none => jsIndex defaultResponses ⌊random * (defaultResponses.length : ℚ)⌋) ∧
    includes "how do i record?" "record" = true ∧
    includes "how do i record?" "how" = true ∧
    (toLowerCase "How do I record?" = "how do i record?" →
      generateResponse toLowerCase "How do I record?" = serverRecordResponse ∧
      ∀ random : ℚ,
        generateBarrotResponse toLowerCase random "How do I record?" =
          some clientRecordResponse) ∧
    includes serverRecordResponse "Recording" = true ∧
    includes clientRecordResponse "Recording" = true := by
  refine ⟨rfl, rfl, ?_, ?_, by decide, by decide, ?_, by decide, by decide⟩
  · intro message
    simp only [generateResponse, firstMatch, serverPairs, List.find?, List.any, Bool.or_false]
    cases includes (toLowerCase message) "stream" <;>
    cases includes (toLowerCase message) "record" <;>
    cases includes (toLowerCase message) "render" <;>
    cases includes (toLowerCase message) "3d" <;> rfl
  · intro random message
    simp only [generateBarrotResponse, firstMatch, clientPairs, List.find?, List.any,
      Bool.or_false]
    cases includes (toLowerCase message) "stream" <;>
    cases includes (toLowerCase message) "streaming" <;> try rfl
    all_goals
      cases includes (toLowerCase message) "record" <;>
      cases includes (toLowerCase message) "recording" <;> try rfl
    all_goals
      cases includes (toLowerCase message) "render" <;>
      cases includes (toLowerCase message) "3d" <;> try rfl
    all_goals
      cases includes (toLowerCase message) "feature" <;>
      cases includes (toLowerCase message) "what can" <;> try rfl
    all_goals
      cases includes (toLowerCase message) "help" <;>
      cases includes (toLowerCase message) "how" <;> try rfl
    all_goals
      cases includes (toLowerCase message) "audio" <;>
      cases includes (toLowerCase message) "sound" <;> try rfl
    all_goals
      cases includes (toLowerCase message) "video" <;> try rfl
    all_goals
      cases includes (toLowerCase message) "thank" <;>
      cases includes (toLowerCase message) "thanks" <;> try rfl
    all_goals
      cases includes (toLowerCase message) "hello" <;>
      cases includes (toLowerCase message) "hi" <;> rfl
  · intro hlow
    have h0 : includes "how do i record?" "stream" = false := by decide
    have h1 : (includes "how do i record?" "stream" ||
        includes "how do i record?" "streaming") = false := by decide
    have h2 : (includes "how do i record?" "record" ||
        includes "how do i record?" "recording") = true := by decide
    have h3 : includes "how do i record?" "record" = true := by decide
    constructor
    · simp only [generateResponse, hlow, h0, h3, if_true, Bool.false_eq_true, if_false]
    · intro random
      simp only [generateBarrotResponse, hlow, h1, h2, if_true, Bool.false_eq_true, if_false]

/-- C6, witness: `How do I record?` with the lower-casing of ASCII letters. -/
theorem first_matching_pair_wins_witness :
    asciiToLowerCase "How do I record?" = "how do i record?" ∧
    generateResponse asciiToLowerCase "How do I record?" = serverRecordResponse ∧
    generateBarrotResponse asciiToLowerCase (1 / 2) "How do I record?" =
      some clientRecordResponse :=
  have h := (first_matching_pair_wins asciiToLowerCase).2.2.2.2.2.2.1 (by decide)
  ⟨by decide, h.1, h.2 (1 / 2)⟩

theorem jsIndex_defaultResponses (random : ℚ) (h0 : 0 ≤ random) (h1 : random < 1) :
    ∃ response ∈ defaultResponses,
      jsIndex defaultResponses ⌊random * (defaultResponses.length : ℚ)⌋ = some response := by
  have hlen : ((defaultResponses.length : ℕ) : ℚ) = 4 := by
    simp [defaultResponses]
  rw [hlen]
  have hlo : (0 : Int) ≤ ⌊random * 4⌋ := Int.floor_nonneg.mpr (by positivity)
  have hhi : ⌊random * 4⌋ < (4 : Int) := by
    rw [Int.floor_lt]
    push_cast
    linarith
  obtain ⟨k, hk⟩ := Int.eq_ofNat_of_zero_le hlo
  rw [hk] at hhi ⊢
  have hk4 : k < 4 := by exact_mod_cast hhi
  have hidx : jsIndex defaultResponses (k : Int) = defaultResponses.get? k := by
    simp [jsIndex]
  rw [hidx]
  interval_cases k
  · exact ⟨_, by simp [defaultResponses], rfl⟩
  · exact ⟨_, by simp [defaultResponses], rfl⟩
  · exact ⟨_, by simp [defaultResponses], rfl⟩
  · exact ⟨_, by simp [defaultResponses], rfl⟩

/-- C7: when the lower-cased input contains none of a generator's keywords,
`generateResponse` returns its single default string, and
`generateBarrotResponse` returns one of its four default strings for every
draw `0 ≤ random < 1`: the index `floor(random * 4)` is inside the array and
the result is never `undefined`. This holds whatever function lower-cases the
input. -/
theorem fallback_is_a_default (toLowerCase : String → String) (message : String) :
    ((∀ p ∈ serverPairs, ∀ kw ∈ p.1, includes (toLowerCase message) kw = false) →
      generateResponse toLowerCase message = serverDefaultResponse) ∧
    ((∀ p ∈ clientPairs, ∀ kw ∈ p.1, includes (toLowerCase message) kw = false) →
      defaultResponses.length = 4 ∧
      ∀ random : ℚ, 0 ≤ random → random < 1 →
        ∃ response ∈ defaultResponses,
          generateBarrotResponse toLowerCase random message = some response) := by
  constructor
  · intro h
    simp only [serverPairs, List.forall_mem_cons, List.not_mem_nil, false_implies,
      implies_true, and_true] at h
    obtain ⟨h1, h2, h3, h4⟩ := h
    simp [generateResponse, h1, h2, h3, h4]
  · intro h
    refine ⟨rfl, ?_⟩
    intro random h0 h1
    simp only [clientPairs, List.forall_mem_cons, List.not_mem_nil, false_implies,
      implies_true, and_true] at h
    obtain ⟨⟨a1, a2⟩, ⟨b1, b2⟩, ⟨c1, c2⟩, ⟨d1, d2⟩, ⟨e1, e2⟩, ⟨f1, f2⟩, g1, ⟨i1, i2⟩, j1, j2⟩ := h
    have hgen : generateBarrotResponse toLowerCase random message =
        jsIndex defaultResponses ⌊random * (defaultResponses.length : ℚ)⌋ := by
      simp [generateBarrotResponse, a1, a2, b1, b2, c1, c2, d1, d2, e1, e2, f1, f2, g1, i1, i2,
        j1, j2]
    rw [hgen]
    exact jsIndex_defaultResponses random h0 h1

/-- C7, witness: `xyz` matches no keyword; the draw 0.6 picks the third
default string. -/
theorem fallback_is_a_default_witness :
    generateResponse asciiToLowerCase "xyz" = serverDefaultResponse ∧
    ∃ response ∈ defaultResponses,
      generateBarrotResponse asciiToLowerCase (3 / 5) "xyz" = some response :=
  ⟨(fallback_is_a_default asciiToLowerCase "xyz").1 (by decide),
   ((fallback_is_a_default asciiToLowerCase "xyz").2 (by decide)).2 (3 / 5)
     (by norm_num) (by norm_num)⟩

/-! ## Chat message persistence -/

/-- C8: for a non-empty message text whose insert succeeds (the engine reports
no failure), `POST /api/chat/message` appends exactly one row to
`chat_messages`, holding the submitted text and `generateResponse` of it under
the next key (and in `user_id` what the engine makes of `userId || null`),
leaves the other tables as they were, and answers 200 with that key, the same
message and the same response. -/
theorem chat_message_persisted (env : Env) (db : Store) (text : String) (userId : JsVal)
    (htext : text ≠ "") (hE : env.dbError = none) :
    postChatMessage env db (.str text) userId =
      (⟨200, .chatMessage (nextRowid db.chatSeq (db.chat_messages.map (fun r => r.id))) text
          (generateResponse env.toLowerCase text) env.dateNow⟩,
       { db with
         chat_messages := db.chat_messages ++
           [⟨nextRowid db.chatSeq (db.chat_messages.map (fun r => r.id)),
             toIntegerColumn env userId.orNull, text, generateResponse env.toLowerCase text,
             env.sqlNow⟩],
         chatSeq := nextRowid db.chatSeq (db.chat_messages.map (fun r => r.id)) }) := by
  simp [postChatMessage, JsVal.truthy, htext, insertChatMessage, hE]

/-- C8, witness: the spec's scenario `How do I record?` on the empty store. -/
theorem chat_message_persisted_witness :
    postChatMessage (Env.sample 9 9000 none) Store.empty (.str "How do I record?") .undefined =
      (⟨200, .chatMessage 1 "How do I record?" serverRecordResponse 9000⟩,
       { Store.empty with
         chat_messages := [⟨1, .null, "How do I record?", serverRecordResponse, 9⟩],
         chatSeq := 1 }) :=
  (chat_message_persisted (Env.sample 9 9000 none) Store.empty "How do I record?" .undefined
    (by decide) rfl).trans (by decide)

/-! ## Order and filter of the list handlers -/

theorem mem_matchingRows {α : Type} (env : Env) (user_id : α → SqlVal) (table : List α)
    (userId : Option String) (r : α) (h : r ∈ matchingRows env user_id table userId) :
    r ∈ table ∧ ∀ u, userFilter userId = some u → sqlEqParam env (user_id r) u = true := by
  unfold matchingRows at h
  cases hf : userFilter userId with
  | none =>
    rw [hf] at h
    exact ⟨h, by simp⟩
  | some u =>
    rw [hf] at h
    obtain ⟨h1, h2⟩ := List.mem_filter.mp h
    refine ⟨h1, ?_⟩
    intro v hv
    injection hv with hv
    rw [← hv]
    exact h2

theorem filter_orderedInsert {α : Type} (created_at : α → Nat) (t : Nat) (a : α) (l : List α) :
    (l.orderedInsert (fun a b => created_at a ≥ created_at b) a).filter
        (fun r => created_at r == t) =
      (a :: l).filter (fun r => created_at r == t) := by
  induction l with
  | nil => rfl
  | cons b l ih =>
    simp only [List.orderedInsert]
    split
    · rfl
    · rename_i hab
      have hlt : created_at a < created_at b := by
        simp only [ge_iff_le, not_le] at hab
        exact hab
      rw [List.filter_cons, ih]
      by_cases ha : created_at a = t
      · have hb : ¬ created_at b = t := by omega
        simp [List.filter_cons, ha, hb]
      · simp [List.filter_cons, ha]

theorem filter_insertionSort {α : Type} (created_at : α → Nat) (t : Nat) (l : List α) :
    (l.insertionSort (fun a b => created_at a ≥ created_at b)).filter
        (fun r => created_at r == t) =
      l.filter (fun r => created_at r == t) := by
  induction l with
  | nil => rfl
  | cons a l ih =>
    rw [List.insertionSort, filter_orderedInsert, List.filter_cons, ih, List.filter_cons]

theorem selectNewest_rows {α : Type} (user_id : α → SqlVal) (created_at : α → Nat) (env : Env)
    (table : List α) (userId : Option String) (limit : Option Int) (rows : List α)
    (h : selectNewest user_id created_at env table (userFilter userId) limit = .ok rows) :
    (∀ r ∈ rows, r ∈ table ∧
      ∀ u, userFilter userId = some u → sqlEqParam env (user_id r) u = true) ∧
    (∀ (i j : Nat) (hi : i < rows.length) (hj : j < rows.length),
      created_at rows[j] < created_at rows[i] → i < j) ∧
    (∀ t, rows.filter (fun r => created_at r == t) <+:
      (matchingRows env user_id table userId).filter (fun r => created_at r == t)) ∧
    (∀ n, limit = some n →
      n < 0 ∨ ((matchingRows env user_id table userId).length : Int) ≤ n →
      rows.Perm (matchingRows env user_id table userId)) := by
  obtain ⟨n, hn, -, -, -, hrows⟩ :=
    selectNewest_ok user_id created_at env table userId limit rows h
  haveI : IsTotal α (fun a b => created_at a ≥ created_at b) :=
    ⟨fun a b => Nat.le_total (created_at b) (created_at a)⟩
  haveI : IsTrans α (fun a b => created_at a ≥ created_at b) :=
    ⟨fun a b c hab hbc => Nat.le_trans hbc hab⟩
  have hsorted := List.sorted_insertionSort (fun a b => created_at a ≥ created_at b)
    (matchingRows env user_id table userId)
  have hperm := List.perm_insertionSort (fun a b => created_at a ≥ created_at b)
    (matchingRows env user_id table userId)
  have hpre : rows <+: (matchingRows env user_id table userId).insertionSort
      (fun a b => created_at a ≥ created_at b) := by
    rw [hrows]
    split
    · exact List.prefix_refl _
    · exact List.take_prefix _ _
  have hsub := hpre.sublist
  have hpair : rows.Pairwise (fun a b => created_at a ≥ created_at b) :=
    List.Pairwise.sublist hsub hsorted
  refine ⟨?_, ?_, ?_, ?_⟩
  · intro r hr
    exact mem_matchingRows env user_id table userId r (hperm.mem_iff.mp (hsub.subset hr))
  · intro i j hi hj hlt
    by_contra hij
    have hji : j < i := by
      rcases Nat.lt_or_ge i j with h1 | h1
      · exact absurd h1 hij
      · rcases Nat.eq_or_lt_of_le h1 with h2 | h2
        · subst h2
          exact absurd hlt (Nat.lt_irrefl _)
        · exact h2
    have := List.pairwise_iff_getElem.mp hpair j i hj hi hji
    simp only [ge_iff_le] at this
    omega
  · intro t
    have := List.IsPrefix.filter (fun r => created_at r == t) hpre
    rw [filter_insertionSort] at this
    exact this
  · intro m hm hcase
    rw [hn] at hm
    injection hm with hm
    subst hm
    rw [hrows]
    split
    · exact hperm
    · rename_i hneg
      have hle : ((matchingRows env user_id table userId).length : Int) ≤ n := by
        rcases hcase with h1 | h1
        · exact absurd h1 hneg
        · exact h1
      rw [List.take_of_length_le]
      · exact hperm
      · rw [List.length_insertionSort]
        omega

/-- C9 (as amended): the rows `GET /api/chat/history` and `GET /api/recordings`
return are rows of the table whose `user_id` equals the `userId` filter (rows
of any user when there is no filter), ordered by `created_at`, latest first: a
returned row with a later `created_at` stands before every returned row with
an earlier one. Rows of the same second are not newest-first: they come in the
order of the table, oldest first, and the ones returned are the first ones of
that second. When the limit does not cut the list, the rows are all the
matching rows. The query answers 200 with such a list whenever the engine does
not fail and `limit` parses to an integer between -2^63 and 2^63. -/
theorem newest_first_filtered (env : Env) (db : Store) (userId limit : Option String) :
    (∀ rows, getChatHistory env db userId limit = ⟨200, .messages rows⟩ →
      (∀ r ∈ rows, r ∈ db.chat_messages ∧
        ∀ u, userFilter userId = some u → sqlEqParam env r.user_id u = true) ∧
      (∀ (i j : Nat) (hi : i < rows.length) (hj : j < rows.length),
        rows[j].created_at < rows[i].created_at → i < j) ∧
      (∀ t, rows.filter (fun r => r.created_at == t) <+:
        (matchingRows env ChatRow.user_id db.chat_messages userId).filter
          (fun r => r.created_at == t)) ∧
      (∀ n, boundLimit limit = some n →
        n < 0 ∨ ((matchingRows env ChatRow.user_id db.chat_messages userId).length : Int) ≤ n →
        rows.Perm (matchingRows env ChatRow.user_id db.chat_messages userId))) ∧
    (∀ rows, getRecordings env db userId limit = ⟨200, .recordings rows⟩ →
      (∀ r ∈ rows, r ∈ db.recordings ∧
        ∀ u, userFilter userId = some u → sqlEqParam env r.user_id u = true) ∧
      (∀ (i j : Nat) (hi : i < rows.length) (hj : j < rows.length),
        rows[j].created_at < rows[i].created_at → i < j) ∧
      (∀ t, rows.filter (fun r => r.created_at == t) <+:
        (matchingRows env RecordingRow.user_id db.recordings userId).filter
          (fun r => r.created_at == t)) ∧
      (∀ n, boundLimit limit = some n →
        n < 0 ∨ ((matchingRows env RecordingRow.user_id db.recordings userId).length : Int) ≤ n →
        rows.Perm (matchingRows env RecordingRow.user_id db.recordings userId))) ∧
    (env.dbError = none → ∀ n, boundLimit limit = some n → -2 ^ 63 < n → n < 2 ^ 63 →
      (∃ rows, getChatHistory env db userId limit = ⟨200, .messages rows⟩) ∧
      (∃ rows, getRecordings env db userId limit = ⟨200, .recordings rows⟩)) := by
  refine ⟨?_, ?_, ?_⟩
  · intro rows h
    unfold getChatHistory at h
    split at h
    · simp at h
    · rename_i rows2 heq
      injection h with _ hb
      injection hb with hb
      subst hb
      exact selectNewest_rows ChatRow.user_id ChatRow.created_at env db.chat_messages userId
        (boundLimit limit) rows2 heq
  · intro rows h
    unfold getRecordings at h
    split at h
    · simp at h
    · rename_i rows2 heq
      injection h with _ hb
      injection hb with hb
      subst hb
      exact selectNewest_rows RecordingRow.user_id RecordingRow.created_at env db.recordings
        userId (boundLimit limit) rows2 heq
  · intro hE n hn hlo hhi
    constructor
    · unfold getChatHistory
      rw [hn, selectNewest_succeeds _ _ env _ userId n hE hlo hhi]
      exact ⟨_, rfl⟩
    · unfold getRecordings
      rw [hn, selectNewest_succeeds _ _ env _ userId n hE hlo hhi]
      exact ⟨_, rfl⟩

/-- C9, witness: three messages, two of user 7; the filter `userId=7` returns
these two, the later first. -/
theorem newest_first_filtered_witness :
    getChatHistory (Env.sample 9 9000 none)
        ⟨[], [⟨1, .int 7, "a", "b", 5⟩, ⟨2, .int 8, "c", "d", 6⟩, ⟨3, .int 7, "e", "f", 7⟩],
          [], [], 0, 3, 0, 0⟩ (some "7") none =
      ⟨200, .messages [⟨3, .int 7, "e", "f", 7⟩, ⟨1, .int 7, "a", "b", 5⟩]⟩ ∧
    ∀ r ∈ [(⟨3, .int 7, "e", "f", 7⟩ : ChatRow), ⟨1, .int 7, "a", "b", 5⟩],
      r ∈ [(⟨1, .int 7, "a", "b", 5⟩ : ChatRow), ⟨2, .int 8, "c", "d", 6⟩,
           ⟨3, .int 7, "e", "f", 7⟩] ∧
      ∀ u, userFilter (some "7") = some u →
        sqlEqParam (Env.sample 9 9000 none) r.user_id u = true :=
  ⟨by decide,
   ((newest_first_filtered (Env.sample 9 9000 none)
      ⟨[], [⟨1, .int 7, "a", "b", 5⟩, ⟨2, .int 8, "c", "d", 6⟩, ⟨3, .int 7, "e", "f", 7⟩],
        [], [], 0, 3, 0, 0⟩ (some "7") none).1
      [⟨3, .int 7, "e", "f", 7⟩, ⟨1, .int 7, "a", "b", 5⟩] (by decide)).1⟩

/-- C9, counterexample: two messages are posted one after the other within the
same second; `GET /api/chat/history` returns both, and the one created later
stands after the one created earlier. -/
theorem same_second_oldest_first :
    (postChatMessage (Env.sample 9 9100 none) Store.empty (.str "first") .undefined).2 =
      { Store.empty with
        chat_messages := [⟨1, .null, "first", serverDefaultResponse, 9⟩], chatSeq := 1 } ∧
    (postChatMessage (Env.sample 9 9600 none)
        { Store.empty with
          chat_messages := [⟨1, .null, "first", serverDefaultResponse, 9⟩], chatSeq := 1 }
        (.str "second") .undefined).2 =
      { Store.empty with
        chat_messages := [⟨1, .null, "first", serverDefaultResponse, 9⟩,
          ⟨2, .null, "second", serverDefaultResponse, 9⟩], chatSeq := 2 } ∧
    getChatHistory (Env.sample 10 10000 none)
        { Store.empty with
          chat_messages := [⟨1, .null, "first", serverDefaultResponse, 9⟩,
            ⟨2, .null, "second", serverDefaultResponse, 9⟩], chatSeq := 2 }
        none none =
      ⟨200, .messages [⟨1, .null, "first", serverDefaultResponse, 9⟩,
        ⟨2, .null, "second", serverDefaultResponse, 9⟩]⟩ := by
  decide

/-! ## Sessions -/

theorem hexDigit_facts :
    ∀ d, d < 16 → hexDigit d ∈ "0123456789abcdef".data ∧ hexValue (hexDigit d) = d := by
  decide

theorem hexChars_length (bytes : List (Fin 256)) : (hexChars bytes).length = 2 * bytes.length := by
  induction bytes with
  | nil => rfl
  | cons b bs ih =>
    simp only [hexChars, List.length_cons, ih]
    omega

theorem hexChars_alphabet (bytes : List (Fin 256)) :
    ∀ c ∈ hexChars bytes, c ∈ "0123456789abcdef".data := by
  induction bytes with
  | nil => intro c hc; simp [hexChars] at hc
  | cons b bs ih =>
    intro c hc
    simp only [hexChars, List.mem_cons] at hc
    rcases hc with rfl | rfl | hc
    · exact (hexDigit_facts (b.val / 16) (by omega)).1
    · exact (hexDigit_facts (b.val % 16) (by omega)).1
    · exact ih c hc

theorem hexChars_decode (bytes : List (Fin 256)) (i : Nat) (hi : i < bytes.length) :
    ∃ high low, (hexChars bytes).get? (2 * i) = some high ∧
      (hexChars bytes).get? (2 * i + 1) = some low ∧
      16 * hexValue high + hexValue low = bytes[i].val := by
  induction bytes generalizing i with
  | nil => simp at hi
  | cons b bs ih =>
    cases i with
    | zero =>
      refine ⟨hexDigit (b.val / 16), hexDigit (b.val % 16), rfl, rfl, ?_⟩
      rw [(hexDigit_facts (b.val / 16) (by omega)).2, (hexDigit_facts (b.val % 16) (by omega)).2]
      simp only [List.getElem_cons_zero]
      omega
    | succ k =>
      obtain ⟨high, low, h1, h2, h3⟩ := ih k (by simpa using hi)
      refine ⟨high, low, ?_, ?_, ?_⟩
      · have : 2 * (k + 1) = (2 * k) + 1 + 1 := by omega
        rw [this]
        simpa [hexChars] using h1
      · have : 2 * (k + 1) + 1 = (2 * k + 1) + 1 + 1 := by omega
        rw [this]
        simpa [hexChars] using h2
      · simpa using h3

/-- C10: for every 32 bytes drawn the session token is their hexadecimal
encoding: 64 characters, each in `0-9a-f`, the pair at positions `2i`, `2i+1`
spelling byte `i`; and for every truthy `userId` and every current time
`Date.now() = t`, when the insert succeeds (no engine failure, token not
already stored) `POST /api/sessions` answers 201 with that token and stores and
returns the expiry `t + 86400000` ms; `user_id` holds what the engine makes of
the `userId`. -/
theorem session_token_and_expiry (env : Env) (randomBytes : RandomBytes) (db : Store)
    (userId : JsVal) :
    (generateSessionToken randomBytes).length = 64 ∧
    (∀ c ∈ (generateSessionToken randomBytes).data, c ∈ "0123456789abcdef".data) ∧
    (∀ (i : Nat) (hi : i < randomBytes.val.length), ∃ high low,
      (generateSessionToken randomBytes).data.get? (2 * i) = some high ∧
      (generateSessionToken randomBytes).data.get? (2 * i + 1) = some low ∧
      16 * hexValue high + hexValue low = randomBytes.val[i].val) ∧
    (userId.truthy = true → env.dbError = none →
      (∀ r ∈ db.sessions, r.session_token ≠ generateSessionToken randomBytes) →
      postSessions env randomBytes db userId =
        (⟨201, .session (nextRowid db.sessionsSeq (db.sessions.map (fun r => r.id)))
            (generateSessionToken randomBytes) (env.dateNow + 86400000)⟩,
         { db with
           sessions := db.sessions ++
             [⟨nextRowid db.sessionsSeq (db.sessions.map (fun r => r.id)),
               toIntegerColumn env userId, generateSessionToken randomBytes,
               env.dateNow + 86400000, env.sqlNow⟩],
           sessionsSeq := nextRowid db.sessionsSeq (db.sessions.map (fun r => r.id)) })) := by
  refine ⟨?_, ?_, ?_, ?_⟩
  · simp only [generateSessionToken, String.length, hexChars_length, randomBytes.property]
  · exact hexChars_alphabet randomBytes.val
  · intro i hi
    exact hexChars_decode randomBytes.val i hi
  · intro hu hE hfresh
    have hno : ¬ db.sessions.any
        (fun r => r.session_token == generateSessionToken randomBytes) = true := by
      intro h
      obtain ⟨r, hr, hrt⟩ := List.any_eq_true.mp h
      exact hfresh r hr (by simpa using hrt)
    simp [postSessions, hu, insertSession, hE, hno]

/-- C10, witness: user 7 at time 1000 on the empty store, the bytes 0, 1, ..., 31. -/
theorem session_token_and_expiry_witness :
    postSessions (Env.sample 1 1000 none)
        ⟨[0, 1, 2, 3, 4, 5, 6, 7, 8, 9, 10, 11, 12, 13, 14, 15, 16, 17, 18, 19, 20, 21, 22, 23,
          24, 25, 26, 27, 28, 29, 30, 31], rfl⟩
        Store.empty (.num 7) =
      (⟨201, .session 1 "000102030405060708090a0b0c0d0e0f101112131415161718191a1b1c1d1e1f"
          86401000⟩,
       { Store.empty with
         sessions := [⟨1, .int 7,
           "000102030405060708090a0b0c0d0e0f101112131415161718191a1b1c1d1e1f", 86401000, 1⟩],
         sessionsSeq := 1 }) :=
  ((session_token_and_expiry (Env.sample 1 1000 none)
    ⟨[0, 1, 2, 3, 4, 5, 6, 7, 8, 9, 10, 11, 12, 13, 14, 15, 16, 17, 18, 19, 20, 21, 22, 23,
      24, 25, 26, 27, 28, 29, 30, 31], rfl⟩ Store.empty (.num 7)).2.2.2
    (by decide) rfl (by simp [Store.empty])).trans (by decide)

/-! ## Validation errors -/

/-- C11 (as amended): `POST /api/users`, `POST /api/recordings` and `POST
/api/sessions` answer 400 if and only if a required field is falsy, that is
missing, `null`, the empty string, the number 0 or `false`; a field that is
missing or empty is falsy; and a request answered 400 gets the same fixed
answer and leaves the store as it was whatever the engine would do: no
statement reaches the store. -/
theorem validation_rejects_falsy (env : Env) (randomBytes : RandomBytes) (db : Store)
    (username email userId filename filePath duration : JsVal) :
    ((postUsers env db username email).1.status = 400 ↔
      (username.truthy = false ∨ email.truthy = false)) ∧
    ((postRecordings env db userId filename filePath duration).1.status = 400 ↔
      (filename.truthy = false ∨ filePath.truthy = false)) ∧
    ((postSessions env randomBytes db userId).1.status = 400 ↔ userId.truthy = false) ∧
    (∀ v : JsVal, isMissingOrEmpty v = true → v.truthy = false) ∧
    ((postUsers env db username email).1.status = 400 → ∀ env2 : Env,
      postUsers env2 db username email =
        (⟨400, .error "Username and email are required"⟩, db)) ∧
    ((postRecordings env db userId filename filePath duration).1.status = 400 → ∀ env2 : Env,
      postRecordings env2 db userId filename filePath duration =
        (⟨400, .error "Filename and file path are required"⟩, db)) ∧
    ((postSessions env randomBytes db userId).1.status = 400 →
      ∀ (env2 : Env) (randomBytes2 : RandomBytes),
      postSessions env2 randomBytes2 db userId = (⟨400, .error "User ID is required"⟩, db)) := by
  have hU : (postUsers env db username email).1.status = 400 ↔
      (username.truthy = false ∨ email.truthy = false) := by
    unfold postUsers
    by_cases hv : (!username.truthy || !email.truthy) = true
    · rw [if_pos hv]
      simpa using hv
    · rw [if_neg hv]
      have hv2 : ¬ (username.truthy = false ∨ email.truthy = false) := by simpa using hv
      constructor
      · intro h
        exfalso
        split at h
        · split at h <;> simp at h
        · simp at h
      · intro h
        exact absurd h hv2
  have hR : (postRecordings env db userId filename filePath duration).1.status = 400 ↔
      (filename.truthy = false ∨ filePath.truthy = false) := by
    unfold postRecordings
    by_cases hv : (!filename.truthy || !filePath.truthy) = true
    · rw [if_pos hv]
      simpa using hv
    · rw [if_neg hv]
      have hv2 : ¬ (filename.truthy = false ∨ filePath.truthy = false) := by simpa using hv
      constructor
      · intro h
        exfalso
        split at h <;> simp at h
      · intro h
        exact absurd h hv2
  have hS : (postSessions env randomBytes db userId).1.status = 400 ↔ userId.truthy = false := by
    unfold postSessions
    by_cases hv : (!userId.truthy) = true
    · rw [if_pos hv]
      simpa using hv
    · rw [if_neg hv]
      have hv2 : ¬ userId.truthy = false := by simpa using hv
      constructor
      · intro h
        exfalso
        simp only at h
        split at h <;> simp at h
      · intro h
        exact absurd h hv2
  refine ⟨hU, hR, hS, ?_, ?_, ?_, ?_⟩
  · intro v hv
    cases v <;> simp_all [isMissingOrEmpty, JsVal.truthy]
  · intro h env2
    have h2 := hU.mp h
    have : (!username.truthy || !email.truthy) = true := by simpa using h2
    simp [postUsers, this]
  · intro h env2
    have h2 := hR.mp h
    have : (!filename.truthy || !filePath.truthy) = true := by simpa using h2
    simp [postRecordings, this]
  · intro h env2 randomBytes2
    have h2 := hS.mp h
    simp [postSessions, h2]

/-- C11, witness: a user without email, a recording with an empty filename, a
session without `userId`, each with an engine that would fail. -/
theorem validation_rejects_falsy_witness :
    postUsers (Env.sample 9 9000 (some "disk I/O error")) Store.empty (.str "a") .undefined =
      (⟨400, .error "Username and email are required"⟩, Store.empty) ∧
    postRecordings (Env.sample 9 9000 (some "disk I/O error")) Store.empty (.num 1) (.str "") (.str "/r/a.webm")
        (.num 3) =
      (⟨400, .error "Filename and file path are required"⟩, Store.empty) ∧
    postSessions (Env.sample 9 9000 (some "disk I/O error"))
        ⟨[0, 1, 2, 3, 4, 5, 6, 7, 8, 9, 10, 11, 12, 13, 14, 15, 16, 17, 18, 19, 20, 21, 22, 23,
          24, 25, 26, 27, 28, 29, 30, 31], rfl⟩ Store.empty .undefined =
      (⟨400, .error "User ID is required"⟩, Store.empty) :=
  have h := validation_rejects_falsy (Env.sample 9 9000 none)
    ⟨[0, 1, 2, 3, 4, 5, 6, 7, 8, 9, 10, 11, 12, 13, 14, 15, 16, 17, 18, 19, 20, 21, 22, 23,
      24, 25, 26, 27, 28, 29, 30, 31], rfl⟩ Store.empty (.str "a") .undefined .undefined
    (.str "") (.str "/r/a.webm") (.num 3)
  have hr := validation_rejects_falsy (Env.sample 9 9000 none)
    ⟨[0, 1, 2, 3, 4, 5, 6, 7, 8, 9, 10, 11, 12, 13, 14, 15, 16, 17, 18, 19, 20, 21, 22, 23,
      24, 25, 26, 27, 28, 29, 30, 31], rfl⟩ Store.empty (.str "a") .undefined (.num 1)
    (.str "") (.str "/r/a.webm") (.num 3)
  ⟨h.2.2.2.2.1 (by decide) _, hr.2.2.2.2.2.1 (by decide) _, h.2.2.2.2.2.2 (by decide) _ _⟩

/-- C11, counterexample: the `userId` 0 is present and not empty, yet `POST
/api/sessions` answers 400; so does `POST /api/users` for the username `false`. -/
theorem zero_user_id_rejected :
    isMissingOrEmpty (.num 0) = false ∧
    postSessions (Env.sample 9 9000 none)
        ⟨[0, 1, 2, 3, 4, 5, 6, 7, 8, 9, 10, 11, 12, 13, 14, 15, 16, 17, 18, 19, 20, 21, 22, 23,
          24, 25, 26, 27, 28, 29, 30, 31], rfl⟩ Store.empty (.num 0) =
      (⟨400, .error "User ID is required"⟩, Store.empty) ∧
    isMissingOrEmpty (.bool false) = false ∧ isMissingOrEmpty (.str "a@x.com") = false ∧
    postUsers (Env.sample 9 9000 none) Store.empty (.bool false) (.str "a@x.com") =
      (⟨400, .error "Username and email are required"⟩, Store.empty) := by
  decide

/-! ## Storage failures -/

/-- C12: when the engine fails with any message `detail`, every handler whose
statement reaches the store answers 500 with its own fixed string and leaves
the store as it was (`POST /api/users` when the message does not name a
`UNIQUE constraint`); a second failure with another message `detail2` gets the
identical response, so the detail does not reach the caller. -/
theorem storage_failure_is_generic (env env2 : Env) (db : Store) (detail detail2 : String)
    (h : env.dbError = some detail) (h2 : env2.dbError = some detail2)
    (randomBytes : RandomBytes) (text : String) (username email userId filename filePath
      duration sessionUser : JsVal) (queryUser limit : Option String) (id : String)
    (htext : text ≠ "") (hname : username.truthy = true) (hmail : email.truthy = true)
    (hfile : filename.truthy = true) (hpath : filePath.truthy = true)
    (huser : sessionUser.truthy = true) :
    (postChatMessage env db (.str text) userId = (⟨500, .error "Failed to save message"⟩, db) ∧
      postChatMessage env2 db (.str text) userId = postChatMessage env db (.str text) userId) ∧
    (getChatHistory env db queryUser limit = ⟨500, .error "Failed to fetch history"⟩ ∧
      getChatHistory env2 db queryUser limit = getChatHistory env db queryUser limit) ∧
    (includes detail "UNIQUE constraint" = false → includes detail2 "UNIQUE constraint" = false →
      postUsers env db username email = (⟨500, .error "Failed to create user"⟩, db) ∧
      postUsers env2 db username email = postUsers env db username email) ∧
    (getUser env db id = ⟨500, .error "Failed to fetch user"⟩ ∧
      getUser env2 db id = getUser env db id) ∧
    (postRecordings env db userId filename filePath duration =
        (⟨500, .error "Failed to save recording"⟩, db) ∧
      postRecordings env2 db userId filename filePath duration =
        postRecordings env db userId filename filePath duration) ∧
    (getRecordings env db queryUser limit = ⟨500, .error "Failed to fetch recordings"⟩ ∧
      getRecordings env2 db queryUser limit = getRecordings env db queryUser limit) ∧
    (postSessions env randomBytes db sessionUser =
        (⟨500, .error "Failed to create session"⟩, db) ∧
      postSessions env2 randomBytes db sessionUser =
        postSessions env randomBytes db sessionUser) := by
  refine ⟨?_, ?_, ?_, ?_, ?_, ?_, ?_⟩
  · simp [postChatMessage, JsVal.truthy, htext, insertChatMessage, h, h2]
  · simp [getChatHistory, selectNewest, h, h2]
  · intro hd hd2
    simp [postUsers, hname, hmail, insertUser, h, h2, hd, hd2]
  · simp [getUser, selectUser, h, h2]
  · simp [postRecordings, hfile, hpath, insertRecording, h, h2]
  · simp [getRecordings, selectNewest, h, h2]
  · simp [postSessions, huser, insertSession, h, h2]

/-- C12, witness: a disk error and a locked database, seen through `POST
/api/chat/message` and `POST /api/users`. -/
theorem storage_failure_is_generic_witness :
    postChatMessage (Env.sample 9 9000 (some "SQLITE_IOERR: disk I/O error")) Store.empty (.str "hello")
        (.num 1) = (⟨500, .error "Failed to save message"⟩, Store.empty) ∧
    postChatMessage (Env.sample 12 12000 (some "SQLITE_BUSY: database is locked")) Store.empty
        (.str "hello") (.num 1) =
      postChatMessage (Env.sample 9 9000 (some "SQLITE_IOERR: disk I/O error")) Store.empty (.str "hello")
        (.num 1) ∧
    postUsers (Env.sample 12 12000 (some "SQLITE_BUSY: database is locked")) Store.empty (.str "a")
        (.str "a@x.com") =
      postUsers (Env.sample 9 9000 (some "SQLITE_IOERR: disk I/O error")) Store.empty (.str "a")
        (.str "a@x.com") :=
  have w := storage_failure_is_generic (Env.sample 9 9000 (some "SQLITE_IOERR: disk I/O error"))
    (Env.sample 12 12000 (some "SQLITE_BUSY: database is locked")) Store.empty
    "SQLITE_IOERR: disk I/O error" "SQLITE_BUSY: database is locked" rfl rfl
    ⟨[0, 1, 2, 3, 4, 5, 6, 7, 8, 9, 10, 11, 12, 13, 14, 15, 16, 17, 18, 19, 20, 21, 22, 23,
      24, 25, 26, 27, 28, 29, 30, 31], rfl⟩
    "hello" (.str "a") (.str "a@x.com") (.num 1) (.str "a.webm") (.str "/r/a.webm") (.num 3)
    (.num 1) none none "1" (by decide) (by decide) (by decide) (by decide) (by decide)
    (by decide)
  ⟨w.1.1, w.1.2, (w.2.2.1 (by decide) (by decide)).2⟩

/-! ## User lookup -/

/-- C13: when the query itself succeeds, `GET /api/users/:id` answers 404 if
and only if no row of `users` has the key the path segment denotes; otherwise
it answers 200 with a row of `users` that has this key; for the decimal text
of a number `n` this is: 404 if and only if no row has the id `n`; `GET
/api/users/999` on the empty store is 404. -/
theorem user_lookup (env : Env) (db : Store) (id : String) (hE : env.dbError = none) :
    ((getUser env db id).status = 404 ↔
      ∀ r ∈ db.users, keyEqParam env r.id id = false) ∧
    (getUser env db id = ⟨404, .error "User not found"⟩ ∨
      ∃ row ∈ db.users, keyEqParam env row.id id = true ∧
        getUser env db id = ⟨200, .user row⟩) ∧
    (∀ (n : Nat) (r : UserRow), keyEqParam env r.id (renderNat n) = true ↔ r.id = n) ∧
    getUser env Store.empty "999" = ⟨404, .error "User not found"⟩ := by
  have hsel : selectUser env db id =
      .ok (db.users.find? (fun r => keyEqParam env r.id id)) := by
    simp [selectUser, hE]
  refine ⟨?_, ?_, ?_, ?_⟩
  · unfold getUser
    rw [hsel]
    cases hf : db.users.find? (fun r => keyEqParam env r.id id) with
    | none =>
      simp only [true_iff]
      intro r hr
      have := List.find?_eq_none.mp hf r hr
      simpa using this
    | some row =>
      have hmem := List.mem_of_find?_eq_some hf
      have hp := List.find?_some hf
      constructor
      · intro h
        simp at h
      · intro h
        rw [h row hmem] at hp
        exact absurd hp (by decide)
  · unfold getUser
    rw [hsel]
    cases hf : db.users.find? (fun r => keyEqParam env r.id id) with
    | none => exact Or.inl rfl
    | some row =>
      have hmem := List.mem_of_find?_eq_some hf
      have hp := List.find?_some hf
      exact Or.inr ⟨row, hmem, hp, rfl⟩
  · intro n r
    rw [keyEqParam_renderNat]
    simp only [beq_iff_eq, Nat.cast_inj]
    exact eq_comm
  · simp [getUser, selectUser, hE, Store.empty]

/-- C13, witness: user 2 of two users is found, user 999 of the empty store is
not. -/
theorem user_lookup_witness :
    ((getUser (Env.sample 9 9000 none) ⟨[⟨1, "a", "a@x.com", 5⟩, ⟨2, "b", "b@x.com", 6⟩], [], [], [],
        2, 0, 0, 0⟩ "2").status = 404 ↔
      ∀ r ∈ [(⟨1, "a", "a@x.com", 5⟩ : UserRow), ⟨2, "b", "b@x.com", 6⟩],
        keyEqParam (Env.sample 9 9000 none) r.id "2" = false) ∧
    getUser (Env.sample 9 9000 none) ⟨[⟨1, "a", "a@x.com", 5⟩, ⟨2, "b", "b@x.com", 6⟩], [], [], [],
        2, 0, 0, 0⟩ "2" = ⟨200, .user ⟨2, "b", "b@x.com", 6⟩⟩ ∧
    getUser (Env.sample 9 9000 none) Store.empty "999" = ⟨404, .error "User not found"⟩ :=
  ⟨(user_lookup (Env.sample 9 9000 none) ⟨[⟨1, "a", "a@x.com", 5⟩, ⟨2, "b", "b@x.com", 6⟩], [], [], [],
      2, 0, 0, 0⟩ "2" rfl).1,
   by decide,
   (user_lookup (Env.sample 9 9000 none) Store.empty "999" rfl).2.2.2⟩

/-! ## Bounded chat history -/

theorem addToHistory_keeps_last (added : List HistoryEntry) (e : HistoryEntry) :
    ((⟨added.drop (added.length - 50)⟩ : ChatBot).addToHistory e.message e.sender
        e.timestamp).conversationHistory =
      (added ++ [e]).drop ((added ++ [e]).length - 50) := by
  unfold ChatBot.addToHistory
  simp only [List.length_append, List.length_drop, List.length_singleton]
  by_cases hlen : added.length < 50
  · have h0 : added.length - 50 = 0 := by omega
    have h1 : added.length + 1 - 50 = 0 := by omega
    rw [h0, h1]
    simp only [List.drop_zero, Nat.sub_zero]
    rw [if_neg (by omega)]
  · have hk : added.length - (added.length - 50) + 1 > 50 := by omega
    rw [if_pos hk]
    have hne : added.drop (added.length - 50) ≠ [] := by
      intro h
      have := congrArg List.length h
      simp only [List.length_drop, List.length_nil] at this
      omega
    rw [List.tail_append_of_ne_nil hne, List.tail_drop]
    have hidx : added.length + 1 - 50 = added.length - 50 + 1 := by omega
    rw [hidx, List.drop_append_of_le_length (by omega)]

theorem addAll_new (added : List HistoryEntry) :
    (ChatBot.new.addAll added).conversationHistory = added.drop (added.length - 50) := by
  induction added using List.reverseRecOn with
  | nil => rfl
  | append_singleton l e ih =>
    have hstep : ChatBot.new.addAll (l ++ [e]) =
        (ChatBot.new.addAll l).addToHistory e.message e.sender e.timestamp := by
      simp [ChatBot.addAll, List.foldl_append]
    have hbot : ChatBot.new.addAll l = ⟨l.drop (l.length - 50)⟩ := by
      cases hb : ChatBot.new.addAll l with
      | mk history =>
        rw [hb] at ih
        simp only at ih
        rw [ih]
    rw [hstep, hbot]
    exact addToHistory_keeps_last l e

/-- C14: after any sequence of `addToHistory` calls on a new `ChatBot`, the
history is exactly the last `min n 50` of the `n` entries added, in the order
added (the oldest are dropped), and after every prefix of the sequence it
holds at most 50 entries. -/
theorem history_is_last_fifty (added : List HistoryEntry) :
    (ChatBot.new.addAll added).getHistory = added.drop (added.length - min added.length 50) ∧
    (ChatBot.new.addAll added).getHistory.length = min added.length 50 ∧
    (∀ k, (ChatBot.new.addAll (added.take k)).getHistory.length ≤ 50) ∧
    (∀ (message sender : String) (now : Nat),
      ((ChatBot.new.addAll added).addToHistory message sender now).getHistory =
        (added ++ [(⟨message, sender, now⟩ : HistoryEntry)]).drop ((added.length + 1) - 50)) := by
  have hmin : added.length - min added.length 50 = added.length - 50 := by omega
  refine ⟨?_, ?_, ?_, ?_⟩
  · rw [hmin]
    exact addAll_new added
  · unfold ChatBot.getHistory
    rw [addAll_new, List.length_drop]
    omega
  · intro k
    unfold ChatBot.getHistory
    rw [addAll_new, List.length_drop]
    omega
  · intro message sender now
    have h := addAll_new (added ++ [⟨message, sender, now⟩])
    simp only [ChatBot.addAll, List.foldl_append, List.foldl_cons, List.foldl_nil,
      List.length_append, List.length_singleton] at h
    exact h

/-! ## Streamer -/

theorem startStream_rejected (st : Streamer) (message : String) (now : Nat) (handle : ℕ+) :
    startStream st (.error message) now handle =
      { st with
        calls := st.calls ++ [BrowserCall.getUserMedia (startStreamConstraints st)] ++
          (if st.barrotApp then
            [BrowserCall.showNotification ("Failed to start stream: " ++ message) "error"]
          else []),
        streamStatus := st.streamStatus.map (fun _ => ⟨"Error", "#ef4444"⟩) } := by
  unfold startStream
  cases hs : st.streamStatus <;> cases ha : st.barrotApp <;>
    simp [Streamer.notify, updateStreamStatus, hs, ha]

theorem startRecording_rejected (st : Studio) (message : String) (frame : ℕ+) :
    startRecording st (.error message) frame =
      { st with
        calls := st.calls ++ [BrowserCall.getUserMedia ⟨.any, none⟩] ++
          (if st.barrotApp then
            [BrowserCall.showNotification ("Failed to start recording: " ++ message) "error"]
          else []) } := by
  unfold startRecording
  cases ha : st.barrotApp <;> simp [Studio.notify, ha]

/-- C15 (as amended): after `getUserMedia` rejects, the Streamer shows the
status `Error` (not `Offline`) and holds the stream it held before, so none
when it was offline; the Studio has `isRecording`, `isPaused`, the recorder,
the chunks and the recordings list as before, so it is idle when it was idle.
Each module reports the failure when `window.BarrotApp` is there. -/
theorem device_failure_state (st : Streamer) (studio : Studio) (message : String) (now : Nat)
    (handle frame : ℕ+) :
    (startStream st (.error message) now handle).streamStatus =
      st.streamStatus.map (fun _ => ⟨"Error", "#ef4444"⟩) ∧
    (startStream st (.error message) now handle).mediaStream = st.mediaStream ∧
    (st.mediaStream = none → (startStream st (.error message) now handle).mediaStream = none) ∧
    (st.barrotApp = true →
      BrowserCall.showNotification ("Failed to start stream: " ++ message) "error" ∈
        (startStream st (.error message) now handle).calls) ∧
    (startRecording studio (.error message) frame).isRecording = studio.isRecording ∧
    (startRecording studio (.error message) frame).isPaused = studio.isPaused ∧
    (startRecording studio (.error message) frame).recordings = studio.recordings ∧
    (startRecording studio (.error message) frame).mediaRecorder = studio.mediaRecorder ∧
    (startRecording studio (.error message) frame).recordedChunks = studio.recordedChunks ∧
    (studio.isRecording = false → studio.isPaused = false →
      (startRecording studio (.error message) frame).isRecording = false ∧
      (startRecording studio (.error message) frame).isPaused = false) ∧
    (studio.barrotApp = true →
      BrowserCall.showNotification ("Failed to start recording: " ++ message) "error" ∈
        (startRecording studio (.error message) frame).calls) := by
  rw [startStream_rejected, startRecording_rejected]
  refine ⟨rfl, rfl, fun h => h, ?_, rfl, rfl, rfl, rfl, rfl, fun h1 h2 => ⟨h1, h2⟩, ?_⟩
  · intro ha
    simp [ha]
  · intro ha
    simp [ha]

/-- C15, witness: access denied on the freshly loaded Streamer and Studio. -/
theorem device_failure_state_witness :
    (startStream Streamer.initial (.error "Permission denied") 5 1).mediaStream = none ∧
    BrowserCall.showNotification "Failed to start stream: Permission denied" "error" ∈
      (startStream Streamer.initial (.error "Permission denied") 5 1).calls ∧
    ((startRecording Studio.initial (.error "Permission denied") 1).isRecording = false ∧
      (startRecording Studio.initial (.error "Permission denied") 1).isPaused = false) :=
  have w := device_failure_state Streamer.initial Studio.initial "Permission denied" 5 1 1
  ⟨w.2.2.1 rfl, w.2.2.2.1 rfl, w.2.2.2.2.2.2.2.2.2.1 rfl rfl⟩

/-- C15, counterexample: the freshly loaded Streamer shows `Offline`; after
`getUserMedia` rejects it shows `Error`. -/
theorem failed_start_shows_error :
    Streamer.initial.streamStatus = some ⟨"Offline", "#a0aec0"⟩ ∧
    (startStream Streamer.initial (.error "Permission denied") 5 1).streamStatus =
      some ⟨"Error", "#ef4444"⟩ ∧
    (startStream Streamer.initial (.error "Permission denied") 5 1).streamStatus.map
      (fun s => s.textContent) ≠ some "Offline" := by
  decide

theorem stopStream_active (st : Streamer) (stream : MediaStream)
    (h : st.mediaStream = some stream) :
    stopStream st =
      { st with
        mediaStream := none,
        streamVideo := st.streamVideo.map (fun _ => none),
        streamStatus := st.streamStatus.map (fun _ => ⟨"Offline", "#a0aec0"⟩),
        startStreamDisabled := false,
        stopStreamDisabled := true,
        streamDurationInterval := none,
        streamDuration := st.streamDuration.map (fun _ => "00:00:00"),
        calls := st.calls ++
          stream.tracks.map (fun track : MediaTrack => BrowserCall.trackStop track.id) ++
          (match st.streamDurationInterval with
            | some handle => [BrowserCall.clearInterval handle]
            | none => []) ++
          (if st.barrotApp then [BrowserCall.showNotification "Stream stopped" "info"]
            else []) } := by
  unfold stopStream
  rw [h]
  cases hv : st.streamVideo <;> cases hs : st.streamStatus <;>
    cases hi : st.streamDurationInterval <;> cases hd : st.streamDuration <;>
    cases ha : st.barrotApp <;>
    simp [Streamer.notify, updateStreamStatus, hv, hs, hi, hd, ha]

/-- C16: with an active stream, `stopStream` calls `stop` on every track of
the stream, sets the held stream to `null`, clears the preview's `srcObject`,
cancels the duration interval and sets its variable to `null`, and shows the
duration `00:00:00` and the status `Offline` (each on its element when the
page has it); with no active stream it changes nothing. -/
theorem stopStream_effect (st : Streamer) :
    (∀ stream, st.mediaStream = some stream →
      (stopStream st).mediaStream = none ∧
      (stopStream st).streamVideo = st.streamVideo.map (fun _ => none) ∧
      (stopStream st).streamDurationInterval = none ∧
      (stopStream st).streamDuration = st.streamDuration.map (fun _ => "00:00:00") ∧
      (stopStream st).streamStatus = st.streamStatus.map (fun _ => ⟨"Offline", "#a0aec0"⟩) ∧
      (stopStream st).calls = st.calls ++
        stream.tracks.map (fun track : MediaTrack => BrowserCall.trackStop track.id) ++
        (match st.streamDurationInterval with
          | some handle => [BrowserCall.clearInterval handle]
          | none => []) ++
        (if st.barrotApp then [BrowserCall.showNotification "Stream stopped" "info"]
          else []) ∧
      (∀ track ∈ stream.tracks, BrowserCall.trackStop track.id ∈ (stopStream st).calls) ∧
      (∀ handle, st.streamDurationInterval = some handle →
        BrowserCall.clearInterval handle ∈ (stopStream st).calls)) ∧
    (st.mediaStream = none → stopStream st = st) := by
  constructor
  · intro stream h
    rw [stopStream_active st stream h]
    refine ⟨rfl, rfl, rfl, rfl, rfl, rfl, ?_, ?_⟩
    · intro track ht
      simp only [List.mem_append, List.mem_map]
      exact Or.inl (Or.inl (Or.inr ⟨track, ht, rfl⟩))
    · intro handle hh
      simp [hh]
  · intro h
    simp [stopStream, h]

/-- C16, witness: the sample stream live with interval handle 3, then stopped;
and the freshly loaded Streamer, which `stopStream` leaves alone. -/
theorem stopStream_effect_witness :
    (stopStream (startStream Streamer.initial (.ok sampleStream) 5 3)).mediaStream = none ∧
    (stopStream (startStream Streamer.initial (.ok sampleStream) 5 3)).streamDurationInterval =
      none ∧
    BrowserCall.trackStop 1 ∈ (stopStream (startStream Streamer.initial (.ok sampleStream) 5 3)).calls ∧
    BrowserCall.trackStop 2 ∈ (stopStream (startStream Streamer.initial (.ok sampleStream) 5 3)).calls ∧
    BrowserCall.clearInterval 3 ∈
      (stopStream (startStream Streamer.initial (.ok sampleStream) 5 3)).calls ∧
    stopStream Streamer.initial = Streamer.initial :=
  have w := (stopStream_effect (startStream Streamer.initial (.ok sampleStream) 5 3)).1
    sampleStream rfl
  ⟨w.1, w.2.2.1, w.2.2.2.2.2.2.1 ⟨1, .audio, true⟩ (by decide),
   w.2.2.2.2.2.2.1 ⟨2, .video, true⟩ (by decide), w.2.2.2.2.2.2.2 3 rfl,
   (stopStream_effect Streamer.initial).2 rfl⟩

/-- C17: with an active stream, `changeQuality` is `stopStream` followed by one
`setTimeout` of `startStream` with the delay 500 ms and nothing else; the
`startStream` so scheduled asks `getUserMedia` for the constraints of the
quality selected (of `720p` without a selector): those of the three presets
are 1920x1080 at 30, 1280x720 at 30 and 854x480 at 24 frames a second. With no
active stream `changeQuality` changes nothing and schedules nothing. -/
theorem changeQuality_effect (st : Streamer) :
    (∀ stream, st.mediaStream = some stream →
      changeQuality st =
        { stopStream st with
          calls := (stopStream st).calls ++ [BrowserCall.setTimeoutStartStream 500] } ∧
      (changeQuality st).calls = st.calls ++
        stream.tracks.map (fun track : MediaTrack => BrowserCall.trackStop track.id) ++
        (match st.streamDurationInterval with
          | some handle => [BrowserCall.clearInterval handle]
          | none => []) ++
        (if st.barrotApp then [BrowserCall.showNotification "Stream stopped" "info"]
          else []) ++ [BrowserCall.setTimeoutStartStream 500] ∧
      startStreamConstraints (changeQuality st) =
        getConstraintsForQuality (st.qualitySelector.getD "720p") ∧
      (∀ outcome now handle, ∃ later,
        (startStream (changeQuality st) outcome now handle).calls =
          (changeQuality st).calls ++
            BrowserCall.getUserMedia (getConstraintsForQuality (st.qualitySelector.getD "720p"))
              :: later)) ∧
    (st.mediaStream = none → changeQuality st = st) ∧
    getConstraintsForQuality "1080p" =
      ⟨.processing true true true, some (.ideal 1920 1080 30)⟩ ∧
    getConstraintsForQuality "720p" =
      ⟨.processing true true true, some (.ideal 1280 720 30)⟩ ∧
    getConstraintsForQuality "480p" =
      ⟨.processing true true true, some (.ideal 854 480 24)⟩ := by
  refine ⟨?_, ?_, by decide, by decide, by decide⟩
  · intro stream h
    have hq : (changeQuality st).qualitySelector = st.qualitySelector := by
      simp only [changeQuality, h]
      rw [stopStream_active st stream h]
    have hc : changeQuality st =
        { stopStream st with
          calls := (stopStream st).calls ++ [BrowserCall.setTimeoutStartStream 500] } := by
      simp [changeQuality, h]
    refine ⟨hc, ?_, ?_, ?_⟩
    · rw [hc, stopStream_active st stream h]
    · simp only [startStreamConstraints, hq]
    · intro outcome now handle
      have hcon : startStreamConstraints (changeQuality st) =
          getConstraintsForQuality (st.qualitySelector.getD "720p") := by
        simp only [startStreamConstraints, hq]
      unfold startStream
      rw [hcon]
      cases outcome with
      | error message =>
        cases ha : (changeQuality st).barrotApp <;> cases hs : (changeQuality st).streamStatus <;>
          simp [Streamer.notify, updateStreamStatus, ha, hs]
      | ok s =>
        cases ha : (changeQuality st).barrotApp <;> cases hs : (changeQuality st).streamStatus <;>
          cases hv : (changeQuality st).streamVideo <;>
          simp [Streamer.notify, updateStreamStatus, ha, hs, hv]
  · intro h
    simp [changeQuality, h]

/-- C17, witness: live at 720p, the selector is set to 480p and `changeQuality`
runs; the restart asks for 854x480 at 24. -/
theorem changeQuality_effect_witness :
    (changeQuality { startStream Streamer.initial (.ok sampleStream) 5 3 with
        qualitySelector := some "480p" }).calls =
      [BrowserCall.getUserMedia ⟨.processing true true true, some (.ideal 1280 720 30)⟩,
       BrowserCall.videoPlay, BrowserCall.setInterval 3 1000,
       BrowserCall.showNotification "Stream started successfully!" "success",
       BrowserCall.trackStop 1, BrowserCall.trackStop 2, BrowserCall.clearInterval 3,
       BrowserCall.showNotification "Stream stopped" "info",
       BrowserCall.setTimeoutStartStream 500] ∧
    startStreamConstraints (changeQuality { startStream Streamer.initial (.ok sampleStream) 5 3
        with qualitySelector := some "480p" }) =
      ⟨.processing true true true, some (.ideal 854 480 24)⟩ :=
  have w := (changeQuality_effect { startStream Streamer.initial (.ok sampleStream) 5 3 with
    qualitySelector := some "480p" }).1 sampleStream rfl
  ⟨w.2.1.trans (by decide), w.2.2.1.trans (by decide)⟩

/-- C19: when `getUserMedia` rejects with an error of message `message`,
`startStream` shows the status `Error` (on `#streamStatus` when the page has
it), reports `Failed to start stream: ` followed by the message (when
`window.BarrotApp` is there), leaves the held stream, the start time and the
interval variable as they were, and calls no `setInterval`: nothing else
changes. -/
theorem startStream_failure (st : Streamer) (message : String) (now : Nat) (handle : ℕ+) :
    startStream st (.error message) now handle =
      { st with
        calls := st.calls ++ [BrowserCall.getUserMedia (startStreamConstraints st)] ++
          (if st.barrotApp then
            [BrowserCall.showNotification ("Failed to start stream: " ++ message) "error"]
          else []),
        streamStatus := st.streamStatus.map (fun _ => ⟨"Error", "#ef4444"⟩) } ∧
    (∀ status, st.streamStatus = some status →
      (startStream st (.error message) now handle).streamStatus = some ⟨"Error", "#ef4444"⟩) ∧
    (st.barrotApp = true →
      (startStream st (.error message) now handle).calls = st.calls ++
        [BrowserCall.getUserMedia (startStreamConstraints st),
         BrowserCall.showNotification ("Failed to start stream: " ++ message) "error"]) ∧
    (startStream st (.error message) now handle).mediaStream = st.mediaStream ∧
    (startStream st (.error message) now handle).streamDurationInterval =
      st.streamDurationInterval ∧
    (∀ h ms, BrowserCall.setInterval h ms ∈ (startStream st (.error message) now handle).calls →
      BrowserCall.setInterval h ms ∈ st.calls) := by
  rw [startStream_rejected]
  refine ⟨rfl, ?_, ?_, rfl, rfl, ?_⟩
  · intro status hs
    simp [hs]
  · intro ha
    simp [ha]
  · intro h ms hmem
    cases ha : st.barrotApp <;> simp [ha] at hmem <;> exact hmem

/-- C19, witness: access denied on the freshly loaded Streamer. -/
theorem startStream_failure_witness :
    (startStream Streamer.initial (.error "Permission denied") 5 1).streamStatus =
      some ⟨"Error", "#ef4444"⟩ ∧
    (startStream Streamer.initial (.error "Permission denied") 5 1).calls =
      [BrowserCall.getUserMedia ⟨.processing true true true, some (.ideal 1280 720 30)⟩,
       BrowserCall.showNotification "Failed to start stream: Permission denied" "error"] :=
  have w := startStream_failure Streamer.initial "Permission denied" 5 1
  ⟨w.2.1 _ rfl, (w.2.2.1 rfl).trans (by decide)⟩

/-! ## Studio -/

theorem stopRecording_active (st : Studio) (recorder : MediaStream)
    (hrec : st.mediaRecorder = some recorder) (hon : st.isRecording = true) :
    stopRecording st =
      { st with
        isRecording := false,
        isPaused := false,
        recordBtnDisabled := false,
        pauseBtnDisabled := true,
        stopRecBtnDisabled := true,
        recordBtnPulse := false,
        pauseBtnHtml := pauseHtml,
        calls := st.calls ++ [BrowserCall.recorderStop] ++
          (match st.audioStream with
            | some stream =>
              stream.tracks.map (fun track : MediaTrack => BrowserCall.trackStop track.id)
            | none => []) ++
          (match st.animationId with
            | some frame => [BrowserCall.cancelAnimationFrame frame]
            | none => []) ++
          (if st.barrotApp then [BrowserCall.showNotification "Recording stopped!" "info"]
            else []) } := by
  unfold stopRecording
  cases hs : st.audioStream <;> cases hf : st.animationId <;> cases ha : st.barrotApp <;>
    simp [Studio.notify, hrec, hon, hs, hf, ha]

/-- C18: while recording is active (also while paused), `stopRecording` stops
the recorder, sets `isRecording` and `isPaused` to false, calls `stop` on
every track of the audio stream and cancels the visualization frame, leaving
the chunks and the recordings list as they are; the recorder's `onstop` then
appends exactly one recording to the end of the list, its blob made of all
buffered chunks in order, and `playbackRecording` and `downloadRecording` act
on that last element: they play its URL and download it under its name. -/
theorem stopRecording_effect (st : Studio) (recorder : MediaStream)
    (hrec : st.mediaRecorder = some recorder) (hon : st.isRecording = true) :
    (stopRecording st).isRecording = false ∧
    (stopRecording st).isPaused = false ∧
    BrowserCall.recorderStop ∈ (stopRecording st).calls ∧
    (∀ stream, st.audioStream = some stream → ∀ track ∈ stream.tracks,
      BrowserCall.trackStop track.id ∈ (stopRecording st).calls) ∧
    (∀ frame, st.animationId = some frame →
      BrowserCall.cancelAnimationFrame frame ∈ (stopRecording st).calls) ∧
    (stopRecording st).recordedChunks = st.recordedChunks ∧
    (stopRecording st).recordings = st.recordings ∧
    (∀ (later : Studio) (now : Nat) (url date : String),
      (onstop later now url date).recordings = later.recordings ++
        [⟨now, "Recording " ++ renderNat (later.recordings.length + 1),
          ⟨(later.recordedChunks.map (fun chunk => chunk.bytes)).flatten, "audio/webm"⟩,
          url, date⟩] ∧
      (onstop later now url date).playbackBtnDisabled = false ∧
      (onstop later now url date).downloadBtnDisabled = false ∧
      (playbackRecording (onstop later now url date)).calls = later.calls ++
        [BrowserCall.audioPlay url] ++
        (if later.barrotApp then [BrowserCall.showNotification "Playing recording..." "info"]
          else []) ∧
      (downloadRecording (onstop later now url date)).calls = later.calls ++
        [BrowserCall.downloadClick url
          ("Recording " ++ renderNat (later.recordings.length + 1) ++ ".webm")] ++
        (if later.barrotApp then
          [BrowserCall.showNotification "Downloading recording..." "success"]
        else [])) := by
  rw [stopRecording_active st recorder hrec hon]
  refine ⟨rfl, rfl, ?_, ?_, ?_, rfl, rfl, ?_⟩
  · simp
  · intro stream hs track ht
    simp only [hs, List.mem_append, List.mem_map]
    exact Or.inl (Or.inl (Or.inr ⟨track, ht, rfl⟩))
  · intro frame hf
    simp [hf]
  · intro later now url date
    have hcalls : (onstop later now url date).calls = later.calls := by
      unfold onstop addRecordingToList
      cases later.recordingsList <;> rfl
    have happ : (onstop later now url date).barrotApp = later.barrotApp := by
      unfold onstop addRecordingToList
      cases later.recordingsList <;> rfl
    have hrecs : (onstop later now url date).recordings = later.recordings ++
        [⟨now, "Recording " ++ renderNat (later.recordings.length + 1),
          ⟨(later.recordedChunks.map (fun chunk => chunk.bytes)).flatten, "audio/webm"⟩,
          url, date⟩] := by
      unfold onstop addRecordingToList
      cases later.recordingsList <;> rfl
    refine ⟨hrecs, ?_, ?_, ?_, ?_⟩
    · unfold onstop addRecordingToList
      cases later.recordingsList <;> rfl
    · unfold onstop addRecordingToList
      cases later.recordingsList <;> rfl
    · unfold playbackRecording
      rw [hrecs, List.getLast?_concat]
      cases ha : later.barrotApp <;> simp [Studio.notify, hcalls, happ, ha]
    · unfold downloadRecording
      rw [hrecs, List.getLast?_concat]
      cases ha : later.barrotApp <;> simp [Studio.notify, hcalls, happ, ha]

/-- C18, witness: a recording on the sample stream is paused, then stopped; two
chunks arrive and `onstop` runs. -/
theorem stopRecording_effect_witness :
    (stopRecording (pauseRecording (startRecording Studio.initial (.ok sampleStream) 4))).isPaused =
      false ∧
    BrowserCall.cancelAnimationFrame 4 ∈
      (stopRecording (pauseRecording (startRecording Studio.initial (.ok sampleStream) 4))).calls ∧
    (onstop (ondataavailable (ondataavailable
        (stopRecording (pauseRecording (startRecording Studio.initial (.ok sampleStream) 4)))
        ⟨[1, 2], "audio/webm"⟩) ⟨[3], "audio/webm"⟩) 1700 "blob:1" "today").recordings =
      [⟨1700, "Recording 1", ⟨[1, 2, 3], "audio/webm"⟩, "blob:1", "today"⟩] :=
  have w := stopRecording_effect (pauseRecording (startRecording Studio.initial (.ok sampleStream) 4))
    sampleStream rfl rfl
  ⟨w.2.1, w.2.2.2.2.1 4 rfl,
   ((w.2.2.2.2.2.2.2 (ondataavailable (ondataavailable
        (stopRecording (pauseRecording (startRecording Studio.initial (.ok sampleStream) 4)))
        ⟨[1, 2], "audio/webm"⟩) ⟨[3], "audio/webm"⟩) 1700 "blob:1" "today").1).trans (by decide)⟩

/-- C20: while recording is active, `pauseRecording` flips `isPaused` (pausing
the recorder when it ran, resuming it when it was paused) and leaves
`isRecording`, the buffered chunks, the recordings list and every other module
variable as they were, so two calls in a row restore the module variables;
when no recording is active it changes nothing. -/
theorem pauseRecording_toggles (st : Studio) :
    (∀ recorder, st.mediaRecorder = some recorder → st.isRecording = true →
      (pauseRecording st).isPaused = !st.isPaused ∧
      (pauseRecording st).isRecording = st.isRecording ∧
      (pauseRecording st).recordedChunks = st.recordedChunks ∧
      (pauseRecording st).recordings = st.recordings ∧
      (pauseRecording st).mediaRecorder = st.mediaRecorder ∧
      (pauseRecording st).audioStream = st.audioStream ∧
      (pauseRecording st).calls = st.calls ++
        [if st.isPaused then BrowserCall.recorderResume else BrowserCall.recorderPause] ∧
      (pauseRecording st).pauseBtnHtml = (if st.isPaused then pauseHtml else resumeHtml) ∧
      pauseRecording (pauseRecording st) =
        { st with
          pauseBtnHtml := if st.isPaused then resumeHtml else pauseHtml,
          calls := st.calls ++
            (if st.isPaused then [BrowserCall.recorderResume, BrowserCall.recorderPause]
             else [BrowserCall.recorderPause, BrowserCall.recorderResume]) }) ∧
    (st.mediaRecorder = none ∨ st.isRecording = false → pauseRecording st = st) := by
  constructor
  · intro recorder hrec hon
    cases hp : st.isPaused <;>
      simp [pauseRecording, hrec, hon, hp]
  · intro h
    rcases h with h | h
    · simp [pauseRecording, h]
    · simp [pauseRecording, h]

/-- C20, witness: a running recording is paused and resumed; the freshly
loaded Studio is left alone. -/
theorem pauseRecording_toggles_witness :
    (pauseRecording (startRecording Studio.initial (.ok sampleStream) 4)).isPaused = true ∧
    (pauseRecording (pauseRecording (startRecording Studio.initial (.ok sampleStream) 4))).isPaused =
      false ∧
    pauseRecording Studio.initial = Studio.initial :=
  have w := (pauseRecording_toggles (startRecording Studio.initial (.ok sampleStream) 4)).1
    sampleStream rfl rfl
  ⟨w.1, by rw [w.2.2.2.2.2.2.2.2]; rfl, (pauseRecording_toggles Studio.initial).2 (Or.inl rfl)⟩

/-! ## Recording metadata -/

theorem toTextColumn_of_truthy (env : Env) (v : JsVal) (h : v.truthy = true) :
    ∃ s, toTextColumn env v = some s := by
  cases v with
  | undefined => simp [JsVal.truthy] at h
  | null => simp [JsVal.truthy] at h
  | bool b => exact ⟨_, rfl⟩
  | num n => exact ⟨_, rfl⟩
  | str s => exact ⟨_, rfl⟩

/-- C22 (as amended): every `POST /api/recordings` answered 201 adds one row
and echoes the submitted `filename`, `filePath` and `duration`. When the
submitted duration is a number other than 0 the row stores that number, the
value the response echoes. A truthy duration of another type is stored as the
engine converts it, `true` as the integer 1 and a text as its numeric
conversion, while the response echoes it as submitted. When the duration is
falsy, as the number 0 is, the row stores `NULL` while the response echoes the
submitted value; a `userId` of 0 is stored as `NULL` too. -/
theorem recording_duration_stored (env : Env) (db : Store)
    (userId filename filePath duration : JsVal)
    (h : (postRecordings env db userId filename filePath duration).1.status = 201) :
    ∃ row : RecordingRow,
      (postRecordings env db userId filename filePath duration).2.recordings =
        db.recordings ++ [row] ∧
      (postRecordings env db userId filename filePath duration).1 =
        ⟨201, .recordingCreated row.id filename filePath duration⟩ ∧
      (∀ n : Int, duration = .num n → n ≠ 0 →
        row.duration = .int n ∧ sameValue row.duration duration = true) ∧
      (duration = .bool true →
        row.duration = .int 1 ∧ sameValue row.duration duration = false) ∧
      (∀ s : String, duration = .str s → s ≠ "" → row.duration = numericOfText env s) ∧
      (duration.truthy = true → row.duration = toIntegerColumn env duration) ∧
      (duration.truthy = false → row.duration = .null) ∧
      (duration = .num 0 → row.duration = .null) ∧
      (userId.truthy = true → row.user_id = toIntegerColumn env userId) ∧
      (userId = .num 0 → row.user_id = .null) := by
  have hv : ¬ (!filename.truthy || !filePath.truthy) = true := by
    intro hv
    simp [postRecordings, hv] at h
  have hf : filename.truthy = true := by
    cases hx : filename.truthy
    · simp [hx] at hv
    · rfl
  have hp : filePath.truthy = true := by
    cases hx : filePath.truthy
    · simp [hx] at hv
    · rfl
  obtain ⟨f, hfs⟩ := toTextColumn_of_truthy env filename hf
  obtain ⟨p, hps⟩ := toTextColumn_of_truthy env filePath hp
  have hE : env.dbError = none := by
    cases hx : env.dbError with
    | none => rfl
    | some e => simp [postRecordings, hf, hp, insertRecording, hx] at h
  refine ⟨⟨nextRowid db.recordingsSeq (db.recordings.map (fun r => r.id)),
    toIntegerColumn env userId.orNull, f, p, toIntegerColumn env duration.orNull, env.sqlNow⟩,
    ?_, ?_, ?_, ?_, ?_, ?_, ?_, ?_, ?_, ?_⟩
  · simp [postRecordings, hf, hp, insertRecording, hE, hfs, hps]
  · simp [postRecordings, hf, hp, insertRecording, hE, hfs, hps]
  · intro n hn hn0
    subst hn
    simp [JsVal.orNull, JsVal.truthy, hn0, toIntegerColumn, sameValue]
  · intro hd
    subst hd
    simp [JsVal.orNull, JsVal.truthy, toIntegerColumn, sameValue]
  · intro s hs hs0
    subst hs
    simp [JsVal.orNull, JsVal.truthy, hs0, toIntegerColumn]
  · intro ht
    simp [JsVal.orNull, ht]
  · intro ht
    simp [JsVal.orNull, ht, toIntegerColumn]
  · intro hd
    subst hd
    simp [JsVal.orNull, JsVal.truthy, toIntegerColumn]
  · intro ht
    simp [JsVal.orNull, ht]
  · intro hu
    subst hu
    simp [JsVal.orNull, JsVal.truthy, toIntegerColumn]

/-- C22, witness: a recording of 95 seconds by user 7, and one with duration 0
and `userId` 0. -/
theorem recording_duration_stored_witness :
    postRecordings (Env.sample 9 9000 none) Store.empty (.num 7) (.str "a.webm") (.str "/r/a.webm")
        (.num 95) =
      (⟨201, .recordingCreated 1 (.str "a.webm") (.str "/r/a.webm") (.num 95)⟩,
       { Store.empty with
         recordings := [⟨1, .int 7, "a.webm", "/r/a.webm", .int 95, 9⟩], recordingsSeq := 1 }) ∧
    postRecordings (Env.sample 9 9000 none) Store.empty (.num 0) (.str "a.webm") (.str "/r/a.webm")
        (.num 0) =
      (⟨201, .recordingCreated 1 (.str "a.webm") (.str "/r/a.webm") (.num 0)⟩,
       { Store.empty with
         recordings := [⟨1, .null, "a.webm", "/r/a.webm", .null, 9⟩], recordingsSeq := 1 }) ∧
    ∃ row : RecordingRow,
      (postRecordings (Env.sample 9 9000 none) Store.empty (.num 0) (.str "a.webm") (.str "/r/a.webm")
        (.num 0)).2.recordings = Store.empty.recordings ++ [row] ∧
      row.duration = .null ∧ row.user_id = .null :=
  ⟨by decide, by decide,
   (recording_duration_stored (Env.sample 9 9000 none) Store.empty (.num 0) (.str "a.webm")
      (.str "/r/a.webm") (.num 0) (by decide)).elim
    (fun row hrow => ⟨row, hrow.1, hrow.2.2.2.2.2.2.2.1 rfl, hrow.2.2.2.2.2.2.2.2.2 rfl⟩)⟩

/-- C22, counterexample: the durations `true` and `"95"` are truthy; the row
stores the integer 1 and the integer 95, the response echoes `true` and the
text `"95"`. -/
theorem truthy_duration_stored_converted :
    postRecordings (Env.sample 9 9000 none) Store.empty (.num 7) (.str "a.webm") (.str "/r/a.webm")
        (.bool true) =
      (⟨201, .recordingCreated 1 (.str "a.webm") (.str "/r/a.webm") (.bool true)⟩,
       { Store.empty with
         recordings := [⟨1, .int 7, "a.webm", "/r/a.webm", .int 1, 9⟩], recordingsSeq := 1 }) ∧
    sameValue (.int 1) (.bool true) = false ∧
    postRecordings (Env.sample 9 9000 none) Store.empty (.num 7) (.str "a.webm") (.str "/r/a.webm")
        (.str "95") =
      (⟨201, .recordingCreated 1 (.str "a.webm") (.str "/r/a.webm") (.str "95")⟩,
       { Store.empty with
         recordings := [⟨1, .int 7, "a.webm", "/r/a.webm", .int 95, 9⟩], recordingsSeq := 1 }) ∧
    sameValue (.int 95) (.str "95") = false := by
  decide

/-! ## Renderer -/

theorem meshesOf_append (a b : List SceneObject) : meshesOf (a ++ b) = meshesOf a ++ meshesOf b := by
  induction a with
  | nil => rfl
  | cons x xs ih =>
    cases x <;> simp [meshesOf, ih]

theorem mem_meshesOf (children : List SceneObject) (id : Nat) :
    SceneObject.mesh id ∈ children ↔ id ∈ meshesOf children := by
  induction children with
  | nil => simp [meshesOf]
  | cons x xs ih =>
    cases x <;> simp [meshesOf, ih]

theorem meshesOf_erase (children : List SceneObject) (id : Nat)
    (h : meshesOf children = [id]) : meshesOf (children.erase (SceneObject.mesh id)) = [] := by
  induction children with
  | nil => simp [meshesOf] at h
  | cons x xs ih =>
    cases x with
    | ambientLight c i =>
      simp only [meshesOf] at h
      rw [List.erase_cons_tail (by simp)]
      simp only [meshesOf]
      exact ih h
    | pointLight c i x y z =>
      simp only [meshesOf] at h
      rw [List.erase_cons_tail (by simp)]
      simp only [meshesOf]
      exact ih h
    | mesh j =>
      simp only [meshesOf, List.cons.injEq] at h
      obtain ⟨hj, hrest⟩ := h
      subst hj
      rw [List.erase_cons_head]
      exact hrest

theorem ready_iff (st : Renderer) :
    st.ready = true ↔ ∃ children position mesh g m,
      st.scene = some children ∧ st.camera = some position ∧ st.currentMesh = some mesh ∧
      meshesOf children = [mesh.id] ∧ mesh.id ≤ st.meshSeq ∧
      mesh.geometry = some g ∧ mesh.material = some m := by
  unfold Renderer.ready
  constructor
  · intro h
    split at h
    · rename_i children position mesh hs hc hm
      simp only [Bool.and_eq_true, beq_iff_eq, decide_eq_true_eq, Option.isSome_iff_exists] at h
      obtain ⟨⟨⟨h1, h2⟩, ⟨g, h3⟩⟩, ⟨m, h4⟩⟩ := h
      exact ⟨children, position, mesh, g, m, hs, hc, hm, h1, h2, h3, h4⟩
    · simp at h
  · rintro ⟨children, position, mesh, g, m, hs, hc, hm, h1, h2, h3, h4⟩
    simp [hs, hc, hm, h1, h2, h3, h4]

theorem replaced_refl (st : Renderer) : Renderer.replaced st st :=
  ⟨Nat.le_refl _, ⟨[], by simp⟩, fun _ h => Or.inl h⟩

theorem replaced_trans (a b c : Renderer) (hab : Renderer.replaced a b)
    (hbc : Renderer.replaced b c) : Renderer.replaced a c := by
  obtain ⟨hseq1, ⟨e1, hc1⟩, hm1⟩ := hab
  obtain ⟨hseq2, ⟨e2, hc2⟩, hm2⟩ := hbc
  refine ⟨Nat.le_trans hseq1 hseq2, ⟨e1 ++ e2, by rw [hc2, hc1, List.append_assoc]⟩, ?_⟩
  intro mesh hmesh
  rcases hm1 mesh hmesh with hsame | ⟨⟨later, hlater, hlt⟩, hg, hmat⟩
  · rcases hm2 mesh hsame with hsame2 | ⟨⟨later, hlater, hlt⟩, hg, hmat⟩
    · exact Or.inl hsame2
    · exact Or.inr ⟨⟨later, hlater, Nat.lt_of_le_of_lt hseq1 hlt⟩, hg, hmat⟩
  · have hg2 : RenderCall.geometryDispose mesh.id ∈ c.calls := by
      rw [hc2]
      exact List.mem_append_left _ hg
    have hmat2 : RenderCall.materialDispose mesh.id ∈ c.calls := by
      rw [hc2]
      exact List.mem_append_left _ hmat
    rcases hm2 later hlater with hsame2 | ⟨⟨later2, hlater2, hlt2⟩, _, _⟩
    · exact Or.inr ⟨⟨later, hsame2, hlt⟩, hg2, hmat2⟩
    · exact Or.inr ⟨⟨later2, hlater2, Nat.lt_of_le_of_lt hseq1 hlt2⟩, hg2, hmat2⟩

theorem createShape_ready (st : Renderer) (shapeType : String) (h : st.ready = true) :
    ∃ children mesh,
      st.scene = some children ∧ st.currentMesh = some mesh ∧
      createShape st shapeType = .ok
        { st with
          scene := some (children.erase (SceneObject.mesh mesh.id) ++
            [SceneObject.mesh (st.meshSeq + 1)]),
          currentMesh := some ⟨st.meshSeq + 1, some (geometryFor shapeType),
            some ⟨st.colorPicker.getD "#00ff88", 100, 0x444444⟩⟩,
          meshSeq := st.meshSeq + 1,
          calls := st.calls ++
            [RenderCall.geometryDispose mesh.id, RenderCall.materialDispose mesh.id] } := by
  obtain ⟨children, position, mesh, g, m, hs, hc, hm, h1, h2, h3, h4⟩ := (ready_iff st).mp h
  refine ⟨children, mesh, hs, hm, ?_⟩
  simp [createShape, hs, hm, h3, h4]

theorem createShape_keeps_ready (st : Renderer) (shapeType : String) (h : st.ready = true) :
    ∃ st2, createShape st shapeType = .ok st2 ∧ st2.ready = true ∧ Renderer.replaced st st2 ∧
      st2.currentMesh.bind (fun mesh => mesh.geometry) = some (geometryFor shapeType) ∧
      st2.barrotApp = st.barrotApp := by
  obtain ⟨children, position, mesh, g, m, hs, hc, hm, h1, h2, h3, h4⟩ := (ready_iff st).mp h
  obtain ⟨children2, mesh2, hs2, hm2, hcreate⟩ := createShape_ready st shapeType h
  rw [hs] at hs2
  rw [hm] at hm2
  injection hs2 with hs2
  injection hm2 with hm2
  subst hs2
  subst hm2
  refine ⟨_, hcreate, ?_, ?_, rfl, rfl⟩
  · rw [ready_iff]
    refine ⟨_, position, _, _, _, rfl, hc, rfl, ?_, Nat.le_refl _, rfl, rfl⟩
    rw [meshesOf_append, meshesOf_erase children mesh.id h1]
    rfl
  · refine ⟨Nat.le_succ _, ⟨_, rfl⟩, ?_⟩
    intro mesh3 hm3
    rw [hm] at hm3
    injection hm3 with hm3
    subst hm3
    exact Or.inr ⟨⟨_, rfl, Nat.lt_succ_self _⟩, by simp, by simp⟩

theorem ready_congr (a b : Renderer) (hs : b.scene = a.scene) (hc : b.camera.isSome = a.camera.isSome)
    (hm : b.currentMesh = a.currentMesh) (hq : b.meshSeq = a.meshSeq) (h : a.ready = true) :
    b.ready = true := by
  obtain ⟨children, position, mesh, g, m, h1, h2, h3, h4, h5, h6, h7⟩ := (ready_iff a).mp h
  rw [h2] at hc
  obtain ⟨position2, hp2⟩ := Option.isSome_iff_exists.mp hc
  rw [ready_iff]
  exact ⟨children, position2, mesh, g, m, by rw [hs, h1], hp2, by rw [hm, h3], h4,
    by rw [hq]; exact h5, h6, h7⟩

theorem replaced_congr (a a2 b b2 : Renderer) (h : Renderer.replaced a b)
    (ha1 : a2.meshSeq = a.meshSeq) (ha2 : a2.calls = a.calls)
    (ha3 : a2.currentMesh = a.currentMesh) (hb1 : b2.meshSeq = b.meshSeq)
    (hb2 : ∃ extra, b2.calls = b.calls ++ extra) (hb3 : b2.currentMesh = b.currentMesh) :
    Renderer.replaced a2 b2 := by
  obtain ⟨hseq, ⟨e, hc⟩, hm⟩ := h
  obtain ⟨e2, hc2⟩ := hb2
  refine ⟨by rw [ha1, hb1]; exact hseq,
    ⟨e ++ e2, by rw [hc2, hc, ha2, List.append_assoc]⟩, ?_⟩
  intro mesh hmesh
  rw [ha3] at hmesh
  rcases hm mesh hmesh with hsame | ⟨⟨later, hlater, hlt⟩, hg, hmat⟩
  · exact Or.inl (by rw [hb3]; exact hsame)
  · refine Or.inr ⟨⟨later, by rw [hb3]; exact hlater, by rw [ha1]; exact hlt⟩, ?_, ?_⟩
    · rw [hc2]
      exact List.mem_append_left _ hg
    · rw [hc2]
      exact List.mem_append_left _ hmat

theorem step_keeps_ready (st : Renderer) (event : RenderEvent) (h : st.ready = true) :
    ∃ st2, st.step event = .ok st2 ∧ st2.ready = true ∧ Renderer.replaced st st2 := by
  cases event with
  | createShape shapeType =>
    obtain ⟨st2, h1, h2, h3, -, -⟩ := createShape_keeps_ready st shapeType h
    exact ⟨st2, h1, h2, h3⟩
  | selectShape value =>
    cases hsel : st.shapeSelector with
    | none =>
      refine ⟨{ st with shapeSelector := none }, ?_, ?_, ?_⟩
      · simp [Renderer.step, changeShape, hsel]
      · exact ready_congr st _ rfl rfl rfl rfl h
      · exact replaced_congr st st st _ (replaced_refl st) rfl rfl rfl rfl ⟨[], by simp⟩ rfl
    | some old =>
      have hr1 : ({ st with shapeSelector := some value } : Renderer).ready = true :=
        ready_congr st _ rfl rfl rfl rfl h
      obtain ⟨st2, h1, h2, h3, -, -⟩ :=
        createShape_keeps_ready { st with shapeSelector := some value } value hr1
      by_cases happ : st2.barrotApp = true
      · refine ⟨{ st2 with calls := st2.calls ++
          [RenderCall.showNotification ("Shape changed to " ++ value) "success"] }, ?_, ?_, ?_⟩
        · simp [Renderer.step, changeShape, hsel, h1, happ]
        · exact ready_congr st2 _ rfl rfl rfl rfl h2
        · exact replaced_congr _ st st2 _ h3 rfl rfl rfl rfl ⟨_, rfl⟩ rfl
      · refine ⟨st2, ?_, h2, ?_⟩
        · simp [Renderer.step, changeShape, hsel, h1, happ]
        · exact replaced_congr _ st st2 _ h3 rfl rfl rfl rfl ⟨[], by simp⟩ rfl
  | resetRender =>
    obtain ⟨children, position, mesh, g, m, hs, hc, hm, -⟩ := (ready_iff st).mp h
    cases hrot : st.rotationSpeed with
    | none =>
      have hr1 : ({ st with
          shapeSelector := st.shapeSelector.map (fun _ => "cube"),
          rotationSpeed := none,
          colorPicker := st.colorPicker.map (fun _ => "#00ff88"),
          camera := some (0, 0, 5) } : Renderer).ready = true :=
        ready_congr st _ rfl (by simp [hc]) rfl rfl h
      obtain ⟨st2, h1, h2, h3, -, -⟩ := createShape_keeps_ready _ "cube" hr1
      by_cases happ : st2.barrotApp = true
      · refine ⟨{ st2 with calls := st2.calls ++
          [RenderCall.showNotification "Rendering reset to defaults" "info"] }, ?_, ?_, ?_⟩
        · simp only [Renderer.step, resetRendering, hrot, hc, h1, happ, if_true,
            Bool.false_eq_true, if_false]
        · exact ready_congr st2 _ rfl rfl rfl rfl h2
        · exact replaced_congr _ st st2 _ h3 rfl rfl rfl rfl ⟨_, rfl⟩ rfl
      · refine ⟨st2, ?_, h2, ?_⟩
        · simp only [Renderer.step, resetRendering, hrot, hc, h1, happ, if_true,
            Bool.false_eq_true, if_false]
        · exact replaced_congr _ st st2 _ h3 rfl rfl rfl rfl ⟨[], by simp⟩ rfl
    | some slider =>
      have hr1 : ({ st with
          shapeSelector := st.shapeSelector.map (fun _ => "cube"),
          rotationSpeed := some "50",
          rotationSpeedValue := 1 / 100,
          colorPicker := st.colorPicker.map (fun _ => "#00ff88"),
          camera := some (0, 0, 5) } : Renderer).ready = true :=
        ready_congr st _ rfl (by simp [hc]) rfl rfl h
      obtain ⟨st2, h1, h2, h3, -, -⟩ := createShape_keeps_ready _ "cube" hr1
      by_cases happ : st2.barrotApp = true
      · refine ⟨{ st2 with calls := st2.calls ++
          [RenderCall.showNotification "Rendering reset to defaults" "info"] }, ?_, ?_, ?_⟩
        · simp only [Renderer.step, resetRendering, hrot, hc, h1, happ, if_true,
            Bool.false_eq_true, if_false]
        · exact ready_congr st2 _ rfl rfl rfl rfl h2
        · exact replaced_congr _ st st2 _ h3 rfl rfl rfl rfl ⟨_, rfl⟩ rfl
      · refine ⟨st2, ?_, h2, ?_⟩
        · simp only [Renderer.step, resetRendering, hrot, hc, h1, happ, if_true,
            Bool.false_eq_true, if_false]
        · exact replaced_congr _ st st2 _ h3 rfl rfl rfl rfl ⟨[], by simp⟩ rfl

theorem run_keeps_ready (events : List RenderEvent) (st : Renderer) (h : st.ready = true) :
    ∃ st2, st.run events = .ok st2 ∧ st2.ready = true ∧ Renderer.replaced st st2 := by
  induction events generalizing st with
  | nil => exact ⟨st, rfl, h, replaced_refl st⟩
  | cons event events ih =>
    obtain ⟨st1, h1, h2, h3⟩ := step_keeps_ready st event h
    obtain ⟨st2, h4, h5, h6⟩ := ih st1 h2
    refine ⟨st2, ?_, h5, replaced_trans st st1 st2 h3 h6⟩
    simp [Renderer.run, h1, h4]

theorem run_append (first later : List RenderEvent) (st mid : Renderer)
    (h : st.run first = .ok mid) : st.run (first ++ later) = mid.run later := by
  induction first generalizing st with
  | nil =>
    simp only [Renderer.run] at h
    injection h with h
    subst h
    rfl
  | cons event events ih =>
    simp only [List.cons_append, Renderer.run] at h ⊢
    cases hstep : st.step event with
    | error e => simp [hstep] at h
    | ok st1 =>
      simp only [hstep] at h ⊢
      exact ih st1 h

theorem init_ready (st : Renderer) :
    ∃ st1, init3DRendering st true = .ok st1 ∧ st1.ready = true ∧
      st1.currentMesh.bind (fun mesh => mesh.geometry) = some Geometry.box := by
  cases hm : st.currentMesh with
  | none =>
    refine ⟨_, by simp [init3DRendering, createShape, hm]; rfl, ?_, ?_⟩
    · simp [Renderer.ready, meshesOf, meshesOf_append]
    · simp [geometryFor]
  | some mesh =>
    cases hg : mesh.geometry <;> cases hmat : mesh.material <;>
    · refine ⟨_, by simp [init3DRendering, createShape, hm, hg, hmat]; rfl, ?_, ?_⟩
      · simp [Renderer.ready, meshesOf, meshesOf_append]
      · simp [geometryFor]

/-- C21: `init3DRendering` on a page with a canvas and every sequence of
events after it (`createShape` with any shape name, a choice in the shape
selector, a reset) succeed, and after the initialization as after the sequence
the scene holds exactly one mesh, which is `currentMesh`; the initial mesh is
the cube. A mesh that was active at any point of the sequence is at the end
still the active one, or it is no longer in the scene and `dispose` was called
on its geometry and on its material. `createShape` gives the new mesh the
geometry of the shape name, and a name other than `cube`, `sphere`, `torus`,
`cone` gives the cube geometry. -/
theorem one_active_mesh (st0 : Renderer) (events : List RenderEvent) :
    ∃ st1 st2, init3DRendering st0 true = .ok st1 ∧ st1.run events = .ok st2 ∧
      (∃ children mesh, st1.scene = some children ∧ st1.currentMesh = some mesh ∧
        meshesOf children = [mesh.id] ∧ mesh.geometry = some Geometry.box) ∧
      (∃ children mesh, st2.scene = some children ∧ st2.currentMesh = some mesh ∧
        meshesOf children = [mesh.id]) ∧
      (∀ first later mid earlier, events = first ++ later → st1.run first = .ok mid →
        mid.currentMesh = some earlier →
        st2.currentMesh = some earlier ∨
        ((∀ children, st2.scene = some children → SceneObject.mesh earlier.id ∉ children) ∧
          RenderCall.geometryDispose earlier.id ∈ st2.calls ∧
          RenderCall.materialDispose earlier.id ∈ st2.calls)) ∧
      (∀ shapeType, ∃ st3, createShape st2 shapeType = .ok st3 ∧
        st3.currentMesh.bind (fun mesh => mesh.geometry) = some (geometryFor shapeType)) ∧
      (∀ shapeType : String, shapeType ≠ "cube" → shapeType ≠ "sphere" → shapeType ≠ "torus" →
        shapeType ≠ "cone" → geometryFor shapeType = Geometry.box) := by
  obtain ⟨st1, hinit, hready1, hbox⟩ := init_ready st0
  obtain ⟨st2, hrun, hready2, -⟩ := run_keeps_ready events st1 hready1
  refine ⟨st1, st2, hinit, hrun, ?_, ?_, ?_, ?_, ?_⟩
  · obtain ⟨children, position, mesh, g, m, hs, hc, hm, h1, h2, h3, h4⟩ :=
      (ready_iff st1).mp hready1
    refine ⟨children, mesh, hs, hm, h1, ?_⟩
    rw [hm] at hbox
    exact hbox
  · obtain ⟨children, position, mesh, g, m, hs, hc, hm, h1, h2, h3, h4⟩ :=
      (ready_iff st2).mp hready2
    exact ⟨children, mesh, hs, hm, h1⟩
  · intro first later mid earlier hsplit hfirst hearlier
    obtain ⟨mid2, hmid2, hreadym, -⟩ := run_keeps_ready first st1 hready1
    rw [hfirst] at hmid2
    injection hmid2 with hmid2
    subst hmid2
    obtain ⟨st3, hrun3, -, hrep⟩ := run_keeps_ready later mid hreadym
    have hsame : st3 = st2 := by
      have := run_append first later st1 mid hfirst
      rw [← hsplit, hrun, hrun3] at this
      injection this with this
      exact this.symm
    subst hsame
    obtain ⟨cm, pm, mm, gm, matm, hsm, hcm, hmm, h1m, h2m, -⟩ := (ready_iff mid).mp hreadym
    rw [hmm] at hearlier
    injection hearlier with hearlier
    subst hearlier
    obtain ⟨c2, p2, m2, g2, mat2, hs2, hc2, hm2, h12, -⟩ := (ready_iff st3).mp hready2
    rcases hrep.2.2 mm hmm with hsame | ⟨⟨newer, hnewer, hlt⟩, hg, hmat⟩
    · exact Or.inl hsame
    · refine Or.inr ⟨?_, hg, hmat⟩
      intro children hchildren hmem
      rw [hs2] at hchildren
      injection hchildren with hchildren
      subst hchildren
      rw [hm2] at hnewer
      injection hnewer with hnewer
      subst hnewer
      rw [mem_meshesOf, h12, List.mem_singleton] at hmem
      omega
  · intro shapeType
    obtain ⟨st3, h1, -, -, h4, -⟩ := createShape_keeps_ready st2 shapeType hready2
    exact ⟨st3, h1, h4⟩
  · intro shapeType h1 h2 h3 h4
    simp [geometryFor, h1, h2, h3, h4]

/-- C21, witness: on the freshly loaded page the user picks the torus, then
`createShape` runs with the unknown name `pyramid`, then the user resets; the
fourth mesh is the only one in the scene, and `pyramid` gives the cube. -/
theorem one_active_mesh_witness :
    geometryFor "pyramid" = Geometry.box ∧
    ((init3DRendering Renderer.loaded true).toOption.bind (fun st1 =>
      (st1.run [.selectShape "torus", .createShape "pyramid", .resetRender]).toOption)).map
        (fun st2 => (st2.scene.map meshesOf, st2.currentMesh.map (fun mesh => mesh.id))) =
      some (some [4], some 4) ∧
    ∃ st1 st2, init3DRendering Renderer.loaded true = .ok st1 ∧
      st1.run [.selectShape "torus", .createShape "pyramid", .resetRender] = .ok st2 ∧
      ∃ children mesh, st2.scene = some children ∧ st2.currentMesh = some mesh ∧
        meshesOf children = [mesh.id] := by
  obtain ⟨st1, st2, h1, h2, -, h4, -, -, h7⟩ :=
    one_active_mesh Renderer.loaded [.selectShape "torus", .createShape "pyramid", .resetRender]
  exact ⟨h7 "pyramid" (by decide) (by decide) (by decide) (by decide), by decide,
    st1, st2, h1, h2, h4⟩

end Barrot
